import Mathlib

/-!
# A verification model of the moto RDS backend (`moto/rds/models.py`)

This file gives a shallow embedding, in Lean, of the in-memory RDS backend of
the `moto` cloud-service simulator, and proves properties of that embedding.

Modelling conventions:

* Python dictionaries (`dict` / `OrderedDict`) keyed by strings are modelled as
  association lists `Dict α = List (String × α)`; assignment replaces an
  existing binding in place (as `OrderedDict.__setitem__` does) and otherwise
  appends, `del`/`pop` remove the binding, and iteration order is list order.
* Python methods that may `raise` are modelled as functions returning
  `Except RdsErr β`; backend methods that can mutate the backend return a pair
  `Except RdsErr β × RDSState` so that the post-state is available on both the
  success and the error path (mutations performed before a `raise` persist,
  exactly as in Python).
* Exception classes live in `moto/rds/exceptions.py`, which is not part of the
  supplied sources; only their identity (and, for `RDSClientError`, the error
  code and message built at the call site in `models.py`) is modelled.
* Strings are Lean `String`s; the two regular expressions used by the backend
  are translated to executable matchers over `List Char`, reproducing Python
  `re.match` semantics (in particular `$` also matches just before a single
  trailing newline, and `.` does not match a newline).
-/

/-- A resource tag, `{"Key": ..., "Value": ...}` in the Python source. -/

structure Tag where
  key : String
  value : String
deriving DecidableEq, Repr

/-- Association-list model of a Python `dict`/`OrderedDict` keyed by strings. -/
abbrev Dict (α : Type) := List (String × α)

/-- `d[k]` lookup returning an option (`dict.get`). -/
def dlookup {α : Type} : Dict α → String → Option α
  | [], _ => none
  | (k, v) :: rest, key => if k = key then some v else dlookup rest key

/-- `k in d` membership test. -/
def dcontains {α : Type} (d : Dict α) (k : String) : Bool :=
  (dlookup d k).isSome

/-- `d[k] = v` assignment: replaces the existing binding in place (as for a
Python `OrderedDict`, which keeps the original position) or appends. -/
def dinsert {α : Type} : Dict α → String → α → Dict α
  | [], key, val => [(key, val)]
  | (k, v) :: rest, key, val =>
    if k = key then (key, val) :: rest else (k, v) :: dinsert rest key val

/-- `del d[k]` / `d.pop(k)`: removes the (first) binding of `k`. -/
def derase {α : Type} : Dict α → String → Dict α
  | [], _ => []
  | (k, v) :: rest, key => if k = key then rest else (k, v) :: derase rest key

/-- The keys of a dictionary, in order. -/
def dkeys {α : Type} (d : Dict α) : List String := d.map Prod.fst

/-- `list.remove(x)` on Python lists: removes the first occurrence (the
`ValueError` raised when `x` is absent is handled at each call site). -/
def removeFirst : List String → String → List String
  | [], _ => []
  | x :: rest, y => if x = y then rest else x :: removeFirst rest y

/-! ## Character classes and Python `re` helpers

`re.match(p, s)` anchors the pattern at the start of `s`; with neither
`re.MULTILINE` nor `re.DOTALL`, `$` matches at the end of the string or just
before a single trailing newline, and `.` matches any character except a
newline.  The two patterns below contain no other metacharacters whose
semantics depend on flags. -/

/-- `[a-zA-Z]` (also the value of Python `str.isalpha` on the ASCII characters
that can occur in a string accepted by the identifier regex). -/
def isAsciiLetter (c : Char) : Bool :=
  (('a' ≤ c && c ≤ 'z') || ('A' ≤ c && c ≤ 'Z'))

/-- `[a-zA-Z0-9]`. -/
def isAsciiAlnum (c : Char) : Bool :=
  isAsciiLetter c || ('0' ≤ c && c ≤ '9')

/-- `[a-zA-Z0-9-]`, the character class of the identifier-regex body. -/
def isIdentChar (c : Char) : Bool :=
  isAsciiAlnum c || c = '-'

/-- `[a-z\d-]`, the character class of `ARN_PARTITION_REGEX`. -/
def isPartitionChar (c : Char) : Bool :=
  ('a' ≤ c && c ≤ 'z') || ('0' ≤ c && c ≤ '9') || c = '-'

/-- Python `$` handling for `re.match`: the part of the string the anchored
pattern has to cover, i.e. the whole string, or everything before a single
trailing newline. -/
def stripTrailingNewline (s : List Char) : List Char :=
  if s.getLast? = some '\n' then s.dropLast else s

/-- The first "line" of the string: what `.*` anchored at position 0 can range
over (used by the lookahead `(?!.*--)`). -/
def firstLine (s : List Char) : List Char :=
  s.takeWhile (fun c => c ≠ '\n')

/-- Does `--` occur as a (contiguous) substring? This is `.*--` applied at
position 0; both characters of `--` are themselves not newlines, so the
occurrence must lie inside the first line. -/
def hasDoubleHyphen : List Char → Bool
  | '-' :: '-' :: _ => true
  | _ :: rest => hasDoubleHyphen rest
  | [] => false

/-! ## `RDSBackend._validate_db_identifier` (models.py:2667)

```python
if (re.match("^(?!.*--)([a-zA-Z]?[a-zA-Z0-9-]{0,61}[a-zA-Z0-9])$", db_identifier)
        and db_identifier[0].isalpha()):
    return
raise InvalidDBInstanceIdentifier
```

The group `[a-zA-Z]?[a-zA-Z0-9-]{0,61}[a-zA-Z0-9]` is matched deterministically
when the end of the match is fixed by `$`: on the final character only the
mandatory `[a-zA-Z0-9]` can apply, and on every earlier character only the
bounded body `[a-zA-Z0-9-]{0,61}` can (the optional leading letter is handled
by trying both alternatives). -/

/-- `[a-zA-Z0-9-]{0,n}[a-zA-Z0-9]` against exactly the remaining characters. -/
def matchBodyThenAlnum : Nat → List Char → Bool
  | _, [] => false
  | _, [c] => isAsciiAlnum c
  | n, c :: rest =>
    match n with
    | 0 => false
    | m + 1 => isIdentChar c && matchBodyThenAlnum m rest

/-- `[a-zA-Z]?[a-zA-Z0-9-]{0,61}[a-zA-Z0-9]` against exactly `core`
(the optional leading letter either consumes the first character or nothing). -/
def matchIdentGroup (core : List Char) : Bool :=
  (match core with
   | c :: rest => isAsciiLetter c && matchBodyThenAlnum 61 rest
   | [] => false)
  || matchBodyThenAlnum 61 core

/-- `re.match("^(?!.*--)([a-zA-Z]?[a-zA-Z0-9-]{0,61}[a-zA-Z0-9])$", s)` as a
Boolean.  The group cannot match a newline, so with the `$` anchor the match
must cover `stripTrailingNewline s`; the negative lookahead rules out `--`
within reach of `.*`, i.e. in the first line. -/
def identRegexMatch (s : List Char) : Bool :=
  !hasDoubleHyphen (firstLine s) && matchIdentGroup (stripTrailingNewline s)

/-- `RDSBackend._validate_db_identifier`, as the Boolean "does not raise
`InvalidDBInstanceIdentifier`".  `db_identifier[0].isalpha()` is evaluated only
when the regex matched (Python `and` short-circuits, so the `IndexError` on an
empty string can never fire), and every string accepted by the regex starts
with a character in `[a-zA-Z0-9-]`, on which the Python Unicode `isalpha` agrees
with `isAsciiLetter`. -/
def validateDbIdentifier (s : String) : Bool :=
  identRegexMatch s.data &&
    (match s.data with
     | c :: _ => isAsciiLetter c
     | [] => false)

/-- The constraint stated by the claim (and by the comment in the source):
1 to 63 letters, digits, or hyphens; first character a letter; must not end
with a hyphen or contain two consecutive hyphens. -/
def specValidDbIdentifier (s : String) : Bool :=
  let cs := s.data
  decide (1 ≤ cs.length) && decide (cs.length ≤ 63) &&
    cs.all isIdentChar &&
    (match cs with
     | c :: _ => isAsciiLetter c
     | [] => false) &&
    (match cs.getLast? with
     | some c => c ≠ '-'
     | none => false) &&
    !hasDoubleHyphen cs

/-! ## The backend ARN regex (models.py:1592)

```python
self.arn_regex = re_compile(
    ARN_PARTITION_REGEX
    + r":rds:.*:[0-9]*:(db|cluster|es|og|pg|ri|secgrp|snapshot|cluster-snapshot|subgrp|db-proxy):.*$")
```

`ARN_PARTITION_REGEX` comes from `moto/utilities/utils.py`, which is not among
the supplied sources.  Modelled from the spec: the spec describes "ARN-based
addressing" of resources named `arn:<partition>:rds:...`; the partition part of
the pattern is `^arn:([a-z\d-]+)`, matching a non-empty run of lowercase
letters, digits and hyphens after the literal `arn:`. -/

/-- The resource-type alternation of the ARN regex, in source order. -/
def arnTypeAlternatives : List String :=
  ["db", "cluster", "es", "og", "pg", "ri", "secgrp", "snapshot",
   "cluster-snapshot", "subgrp", "db-proxy"]

/-- `[0-9]*:(db|...|db-proxy):.*` against exactly the remaining characters.
The digit run must extend exactly to the next colon, the type alternative must
cover a whole colon-delimited segment (every alternative is colon-free and is
followed by `:` in the pattern), and the final `.*` matches any newline-free
remainder. -/
def arnMatchFromAccount (w : List Char) : Bool :=
  let d := w.takeWhile (fun c => c ≠ ':')
  d.all Char.isDigit &&
    (match w.drop d.length with
     | ':' :: w2 =>
       let t := w2.takeWhile (fun c => c ≠ ':')
       arnTypeAlternatives.any (fun ty => t = ty.data) &&
         (match w2.drop t.length with
          | ':' :: _ => true
          | _ => false)
     | _ => false)

/-- `.*:[0-9]*:(...):.*` — the leading `.*` may absorb colons, so every split
at a colon is tried. -/
def arnMatchAfterRds : List Char → Bool
  | [] => false
  | c :: rest => (c = ':' && arnMatchFromAccount rest) || arnMatchAfterRds rest

/-- `self.arn_regex.match(arn)` as a Boolean.  Every piece of the pattern is
newline-free (`.` does not match `\n`), so with the `$` anchor the match must
cover `stripTrailingNewline arn` and that part must contain no newline. -/
def arnRegexMatch (arn : String) : Bool :=
  let core := stripTrailingNewline arn.data
  core.all (fun c => c ≠ '\n') &&
    (match core with
     | 'a' :: 'r' :: 'n' :: ':' :: rest1 =>
       let p := rest1.takeWhile (fun c => c ≠ ':')
       !p.isEmpty && p.all isPartitionChar &&
         (match rest1.drop p.length with
          | ':' :: 'r' :: 'd' :: 's' :: ':' :: z => arnMatchAfterRds z
          | _ => false)
     | _ => false)

/-! ## Exceptions (`moto/rds/exceptions.py`, not among the supplied sources)

Only the identity of each exception class is modelled; message strings are
elided except where `models.py` itself builds them (the `RDSClientError` code
and message at the tagging call sites).  The `python*` constructors stand for
builtin Python exceptions escaping from `models.py` itself. -/

inductive RdsErr where
  | dbInstanceAlreadyExists
  | invalidDBInstanceIdentifier
  | invalidDBInstanceEngine (engine : String) (clusterEngine : String)
  | invalidParameterValue
  | invalidParameterCombination
  | dbInstanceNotFoundError (id : String)
  | invalidDBInstanceStateError (id : String) (action : String)
  | invalidDBClusterStateFaultError (id : String)
  | invalidDBClusterStateFault (id : String)
  | dbClusterNotFoundError (id : String)
  | dbClusterToBeDeletedHasActiveMembers
  | dbSnapshotAlreadyExistsError (id : String)
  | dbClusterSnapshotAlreadyExistsError (id : String)
  | snapshotQuotaExceededError
  | dbSnapshotNotFoundError (id : String)
  | rdsClientError (code : String) (message : String)
  | pythonKeyError
  | pythonValueError
  | pythonTypeError
  | pythonIndexError
deriving DecidableEq, Repr

/-! ## Resource data model

Each Python resource class becomes a structure holding the attributes the
modelled operations read or write.  Attributes that no modelled operation
touches (creation timestamps, endpoints, maintenance windows, storage
configuration, CloudFormation helpers, ...) are omitted.  Backing fields of
Python properties keep their underscored names (`_status`,
`_master_user_password`). -/

/-- The per-backend identity from `BaseBackend`: `region_name`, `account_id`
and the `partition` these imply. -/
structure BackendCtx where
  region_name : String
  account_id : String
  partition : String
deriving DecidableEq, Repr

/-- `arn:{partition}:rds:{region}:{account_id}:{resource_type}:{name}` —
the `RDSBaseModel.arn` property (models.py:134). -/
def mkArn (ctx : BackendCtx) (resourceType : String) (name : String) : String :=
  "arn:" ++ ctx.partition ++ ":rds:" ++ ctx.region_name ++ ":" ++
    ctx.account_id ++ ":" ++ resourceType ++ ":" ++ name

/-- `class DBInstance` (models.py:726). -/
structure DBInstance where
  db_instance_identifier : String
  engine : String
  status : String
  is_replica : Bool
  replicas : List String
  multi_az : Bool
  db_cluster_identifier : Option String
  source_db_identifier : Option String
  deletion_protection : Bool
  copy_tags_to_snapshot : Bool
  tags : List Tag
deriving DecidableEq, Repr

def DBInstance.resource_type : String := "db"

/-- `DBInstance.name` returns `db_instance_identifier`. -/
def DBInstance.name (db : DBInstance) : String := db.db_instance_identifier

def DBInstance.arn (ctx : BackendCtx) (db : DBInstance) : String :=
  mkArn ctx DBInstance.resource_type db.name

/-- `class DBCluster` (models.py:288).  `_status` backs the mutating `status`
property; `_master_user_password` backs the validating password property and
is `none` when the constructor never assigned it. -/
structure DBCluster where
  db_cluster_identifier : String
  engine : String
  engine_version : String
  engine_mode : String
  port : Nat
  _status : String
  deletion_protection : Bool
  cluster_members : List String
  global_cluster_identifier : Option String
  replication_source_identifier : Option String
  read_replica_identifiers : List String
  is_writer : Bool
  copy_tags_to_snapshot : Bool
  master_username : Option String
  _master_user_password : Option String
  backtrack_window : Int
  iam_auth : Bool
  tags : List Tag
deriving DecidableEq, Repr

def DBCluster.resource_type : String := "cluster"

def DBCluster.name (c : DBCluster) : String := c.db_cluster_identifier

def DBCluster.arn (ctx : BackendCtx) (c : DBCluster) : String :=
  mkArn ctx DBCluster.resource_type c.name

/-- The mutating `DBCluster.status` getter (models.py:553): a first read of a
`"creating"` cluster flips the backing field to `"available"` but still
reports `"creating"`. -/
def DBCluster.statusRead (c : DBCluster) : String × DBCluster :=
  if c._status = "creating" then ("creating", { c with _status := "available" })
  else (c._status, c)

/-- `class DBSnapshot` (models.py:1204).  Python stores a reference to the
live `DBInstance`; the model stores the value it had when the snapshot was
taken (no modelled operation reads `snapshot.database` afterwards). -/
structure DBSnapshot where
  database : DBInstance
  snapshot_id : String
  snapshot_type : String
  tags : List Tag
  status : String
deriving DecidableEq, Repr

def DBSnapshot.resource_type : String := "snapshot"

def DBSnapshot.name (snap : DBSnapshot) : String := snap.snapshot_id

def DBSnapshot.arn (ctx : BackendCtx) (snap : DBSnapshot) : String :=
  mkArn ctx DBSnapshot.resource_type snap.name

/-- `class DBClusterSnapshot` (models.py:669). -/
structure DBClusterSnapshot where
  cluster : DBCluster
  snapshot_id : String
  snapshot_type : String
  tags : List Tag
  status : String
deriving DecidableEq, Repr

def DBClusterSnapshot.resource_type : String := "cluster-snapshot"

def DBClusterSnapshot.name (snap : DBClusterSnapshot) : String := snap.snapshot_id

def DBClusterSnapshot.arn (ctx : BackendCtx) (snap : DBClusterSnapshot) : String :=
  mkArn ctx DBClusterSnapshot.resource_type snap.name

/-- `class GlobalCluster` (models.py:219).  Python keeps `members` as a list
of references to the member `DBCluster` objects stored in the regional
backends; the model keeps their identifiers, and `list.remove` (which in
Python compares by object identity) removes by identifier. -/
structure GlobalCluster where
  global_cluster_identifier : String
  engine : String
  members : List String
  status : String
  deletion_protection : Bool
  tags : List Tag
deriving DecidableEq, Repr

def GlobalCluster.resource_type : String := "global-cluster"

def GlobalCluster.name (gc : GlobalCluster) : String := gc.global_cluster_identifier

/-- One pass of Python `str.replace`: scan left to right, substituting each
non-overlapping occurrence of `pat`.  The fuel argument (instantiated with the
length of the scanned list) only makes the recursion structural: when `pat` is
non-empty, every step consumes at least one character. -/
def replaceGo (pat rep : List Char) : Nat → List Char → List Char
  | _, [] => []
  | 0, l => l
  | fuel + 1, c :: rest =>
    if pat.isPrefixOf (c :: rest) then
      rep ++ replaceGo pat rep fuel (rest.drop (pat.length - 1))
    else c :: replaceGo pat rep fuel rest

/-- Python `s.replace(pat, rep)` for the case `rep = ""` used by the source
(for an empty `pat` Python would interleave `rep`, which is invisible when
`rep` is empty, so returning `s` is faithful there). -/
def pyReplace (s : String) (pat : String) (rep : String) : String :=
  if pat.data = [] then s
  else String.mk (replaceGo pat.data rep.data s.data.length s.data)

/-- `GlobalCluster.arn` (models.py:252) overrides the base property:
`super().arn.replace(self.region, "")` removes every occurrence of the region
from the base ARN. -/
def GlobalCluster.arn (ctx : BackendCtx) (gc : GlobalCluster) : String :=
  pyReplace (mkArn ctx GlobalCluster.resource_type gc.name) ctx.region_name ""

/-- `class DBSubnetGroup` (models.py:1425). -/
structure DBSubnetGroup where
  subnet_name : String
  description : String
  tags : List Tag
deriving DecidableEq, Repr

def DBSubnetGroup.resource_type : String := "subgrp"

def DBSubnetGroup.name (g : DBSubnetGroup) : String := g.subnet_name

def DBSubnetGroup.arn (ctx : BackendCtx) (g : DBSubnetGroup) : String :=
  mkArn ctx DBSubnetGroup.resource_type g.name

/-- `class OptionGroup` (models.py:3024); `_name` backs the `name` property. -/
structure OptionGroup where
  _name : String
  engine_name : String
  major_engine_version : String
  tags : List Tag
deriving DecidableEq, Repr

def OptionGroup.resource_type : String := "og"

def OptionGroup.name (g : OptionGroup) : String := g._name

def OptionGroup.arn (ctx : BackendCtx) (g : OptionGroup) : String :=
  mkArn ctx OptionGroup.resource_type g.name

/-- `class DBParameterGroup` (models.py:3074). -/
structure DBParameterGroup where
  _name : String
  description : String
  tags : List Tag
deriving DecidableEq, Repr

def DBParameterGroup.resource_type : String := "pg"

def DBParameterGroup.name (g : DBParameterGroup) : String := g._name

def DBParameterGroup.arn (ctx : BackendCtx) (g : DBParameterGroup) : String :=
  mkArn ctx DBParameterGroup.resource_type g.name

/-- `class DBClusterParameterGroup` (models.py:3147). -/
structure DBClusterParameterGroup where
  _name : String
  description : String
  tags : List Tag
deriving DecidableEq, Repr

def DBClusterParameterGroup.resource_type : String := "cluster-pg"

def DBClusterParameterGroup.name (g : DBClusterParameterGroup) : String := g._name

def DBClusterParameterGroup.arn (ctx : BackendCtx) (g : DBClusterParameterGroup) : String :=
  mkArn ctx DBClusterParameterGroup.resource_type g.name

/-- `class DBSecurityGroup` (models.py:1326). -/
structure DBSecurityGroup where
  group_name : String
  description : String
  tags : List Tag
deriving DecidableEq, Repr

def DBSecurityGroup.resource_type : String := "secgrp"

def DBSecurityGroup.name (g : DBSecurityGroup) : String := g.group_name

def DBSecurityGroup.arn (ctx : BackendCtx) (g : DBSecurityGroup) : String :=
  mkArn ctx DBSecurityGroup.resource_type g.name

/-- `class EventSubscription` (models.py:1292). -/
structure EventSubscription where
  subscription_name : String
  tags : List Tag
deriving DecidableEq, Repr

def EventSubscription.resource_type : String := "es"

def EventSubscription.name (e : EventSubscription) : String := e.subscription_name

def EventSubscription.arn (ctx : BackendCtx) (e : EventSubscription) : String :=
  mkArn ctx EventSubscription.resource_type e.name

/-- `class DBProxy` (models.py:1511); its `name` property returns the random
`unique_id`, not the user-supplied proxy name. -/
structure DBProxy where
  db_proxy_name : String
  unique_id : String
  tags : List Tag
deriving DecidableEq, Repr

def DBProxy.resource_type : String := "db-proxy"

def DBProxy.name (p : DBProxy) : String := p.unique_id

def DBProxy.arn (ctx : BackendCtx) (p : DBProxy) : String :=
  mkArn ctx DBProxy.resource_type p.name

/-- `class ExportTask` (models.py:1269): defines no `resource_type` of its
own, and `RDSBaseModel.resource_type` is only an annotation, so
`getattr(ExportTask, "resource_type", "")` yields `""` in `_find_resource`. -/
structure ExportTask where
  export_task_identifier : String
  tags : List Tag
deriving DecidableEq, Repr

/-! ## Backend state (`RDSBackend.__init__`, models.py:1589) -/

/-- The mutable resource dictionaries of one `RDSBackend`, together with the
backend identity and the snapshot quota.  `snapshot_limit` models
`int(os.environ.get("MOTO_RDS_SNAPSHOT_LIMIT", "100"))`: the environment is
read afresh on every call, so it appears here as an unchanging part of the
state, with default value 100. -/
structure RDSState where
  ctx : BackendCtx
  snapshot_limit : Nat
  clusters : Dict DBCluster
  global_clusters : Dict GlobalCluster
  databases : Dict DBInstance
  database_snapshots : Dict DBSnapshot
  cluster_snapshots : Dict DBClusterSnapshot
  db_parameter_groups : Dict DBParameterGroup
  db_cluster_parameter_groups : Dict DBClusterParameterGroup
  option_groups : Dict OptionGroup
  security_groups : Dict DBSecurityGroup
  subnet_groups : Dict DBSubnetGroup
  event_subscriptions : Dict EventSubscription
  db_proxies : Dict DBProxy
  export_tasks : Dict ExportTask
deriving DecidableEq, Repr

/-! ## `TaggingMixin` (models.py:76) -/

/-- `TaggingMixin.add_tags`: drop every existing tag whose key reappears in
the new list, then append the new list. -/
def addTags (current : List Tag) (new : List Tag) : List Tag :=
  let new_keys := new.map Tag.key
  (current.filter fun tag_set => !(new_keys.contains tag_set.key)) ++ new

/-- `TaggingMixin.remove_tags`: keep the tags whose key is not listed. -/
def removeTags (current : List Tag) (tag_keys : List String) : List Tag :=
  current.filter fun tag_set => !(tag_keys.contains tag_set.key)

/-! ## Engine tables and engine lists -/

/-- `DBCluster.default_engine_version` (models.py:628).  The `KeyError` arm is
unreachable: the constructor has already checked the engine against the list
of cluster engines. -/
def defaultClusterEngineVersion : String → String
  | "aurora" => "5.6.mysql_aurora.1.22.5"
  | "aurora-mysql" => "5.7.mysql_aurora.2.07.2"
  | "aurora-postgresql" => "12.7"
  | "mysql" => "8.0.23"
  | "neptune" => "1.3.2.1"
  | "postgres" => "13.4"
  | _ => ""

/-- `DBCluster.default_port` (models.py:639). -/
def defaultClusterPort : String → Nat
  | "aurora" => 3306
  | "aurora-mysql" => 3306
  | "aurora-postgresql" => 5432
  | "mysql" => 3306
  | "neptune" => 8182
  | "postgres" => 5432
  | _ => 0

/-- Modelled from the spec: `ClusterEngine.list_cluster_engines()` lives in
`moto/rds/utils.py`, which is not among the supplied sources.  The engine-specific default-value table of the spec ranges over exactly these engines. -/
def listClusterEngines : List String :=
  ["aurora", "aurora-mysql", "aurora-postgresql", "mysql", "neptune", "postgres"]

/-- Modelled from the spec: `ClusterEngine.serverless_engines()` (same missing
module) — the Aurora engines, the only ones with a serverless mode. -/
def serverlessEngines : List String :=
  ["aurora", "aurora-mysql", "aurora-postgresql"]

/-- Modelled from the spec: `DbInstanceEngine.valid_db_instance_engine()`
(same missing module) — the DB-instance engines the simulator accepts. -/
def validDbInstanceEngines : List String :=
  ["aurora", "aurora-mysql", "aurora-postgresql", "custom-oracle-ee", "mariadb",
   "mysql", "neptune", "oracle-ee", "oracle-se", "oracle-se1", "oracle-se2",
   "postgres", "sqlserver-ee", "sqlserver-se", "sqlserver-ex", "sqlserver-web"]

/-! ## `DBCluster.__init__` (models.py:298) -/

/-- The keyword arguments of `create_db_cluster` that the model tracks.
`none` stands for an absent (or `None`) argument. -/
structure DBClusterKwargs where
  db_cluster_identifier : String
  engine : Option String
  engine_version : Option String
  engine_mode : Option String
  port : Option Nat
  master_username : Option String
  master_user_password : Option String
  global_cluster_identifier : Option String
  replication_source_identifier : Option String
  deletion_protection : Option Bool
  copy_tags_to_snapshot : Option Bool
  backtrack_window : Option Int
  enable_iam_database_authentication : Option Bool
  tags : List Tag
deriving DecidableEq, Repr

/-- Python truthiness of an optional string (`None` and `""` are falsy). -/
def optStrTruthy : Option String → Bool
  | some s => s ≠ ""
  | none => false

/-- The `DBCluster` constructor.  Checks appear in source order: engine
validation, master username/password validation, backtrack-window validation,
IAM-authentication validation.  Attributes irrelevant to the modelled claims
(storage, endpoints, parameter/subnet groups, scaling, encryption, ...) are
omitted; none of their initializers can raise for the omitted defaults. -/
def DBCluster.make (kw : DBClusterKwargs) : Except RdsErr DBCluster :=
  match kw.engine with
  | none => Except.error RdsErr.invalidParameterValue
  | some engine =>
    if !listClusterEngines.contains engine then
      Except.error RdsErr.invalidParameterValue
    else
      let engine_version :=
        match kw.engine_version with
        | some v => if v = "" then defaultClusterEngineVersion engine else v
        | none => defaultClusterEngineVersion engine
      let engine_mode :=
        match kw.engine_mode with
        | some m => if m = "" then "provisioned" else m
        | none => "provisioned"
      let deletion_protection := (kw.deletion_protection).getD false
      let copy_tags := (kw.copy_tags_to_snapshot).getD false
      -- master username / password (models.py:338)
      let passwordRes : Except RdsErr (Option String) :=
        if (!optStrTruthy kw.master_username &&
              optStrTruthy kw.global_cluster_identifier) || engine = "neptune" then
          Except.ok none
        else if !optStrTruthy kw.master_username then
          Except.error RdsErr.invalidParameterValue
        else
          match kw.master_user_password with
          | some p =>
            if p = "" then Except.error RdsErr.invalidParameterValue
            else if p.length < 8 then Except.error RdsErr.invalidParameterValue
            else Except.ok (some p)
          | none => Except.error RdsErr.invalidParameterValue
      match passwordRes with
      | Except.error e => Except.error e
      | Except.ok password =>
        let port :=
          match kw.port with
          | some p => p
          | none => defaultClusterPort engine
        -- backtrack window (models.py:434); the walrus test is Python
        -- truthiness, so an explicit 0 takes the `else` branch
        let backtrackRes : Except RdsErr Int :=
          match kw.backtrack_window with
          | some b =>
            if b ≠ 0 then
              if engine = "aurora-mysql" then
                if 0 ≤ b && b ≤ 259200 then Except.ok b
                else Except.error RdsErr.invalidParameterValue
              else Except.error RdsErr.invalidParameterValue
            else Except.ok 0
          | none => Except.ok 0
        match backtrackRes with
        | Except.error e => Except.error e
        | Except.ok backtrack =>
          let iam_auth := (kw.enable_iam_database_authentication).getD false
          if iam_auth && !engine.startsWith "aurora-" then
            Except.error RdsErr.invalidParameterCombination
          else
            Except.ok
              { db_cluster_identifier := kw.db_cluster_identifier
                engine := engine
                engine_version := engine_version
                engine_mode := engine_mode
                port := port
                _status := "creating"
                deletion_protection := deletion_protection
                cluster_members := []
                global_cluster_identifier := kw.global_cluster_identifier
                replication_source_identifier := kw.replication_source_identifier
                read_replica_identifiers := []
                is_writer := false
                copy_tags_to_snapshot := copy_tags
                master_username := kw.master_username
                _master_user_password := password
                backtrack_window := backtrack
                iam_auth := iam_auth
                tags := kw.tags }

/-! ## `DBInstance.__init__` (models.py:752) and the instance operations -/

/-- The keyword arguments of `create_db_instance` that the model tracks. -/
structure DBInstanceKwargs where
  db_instance_identifier : String
  engine : String
  db_cluster_identifier : Option String
  source_db_instance_identifier : Option String
  multi_az : Bool
  deletion_protection : Bool
  copy_tags_to_snapshot : Bool
  tags : List Tag
deriving DecidableEq, Repr

/-- The `DBInstance` constructor: `status` starts `"available"`, the instance
is not a replica, and the engine must be a valid instance engine
(models.py:789-796).  The omitted attributes (ports, storage, windows,
security/parameter/option groups, ...) cannot raise for the omitted
defaults. -/
def DBInstance.make (kw : DBInstanceKwargs) : Except RdsErr DBInstance :=
  if validDbInstanceEngines.contains kw.engine then
    Except.ok
      { db_instance_identifier := kw.db_instance_identifier
        engine := kw.engine
        status := "available"
        is_replica := false
        replicas := []
        multi_az := kw.multi_az
        db_cluster_identifier := kw.db_cluster_identifier
        source_db_identifier := kw.source_db_instance_identifier
        deletion_protection := kw.deletion_protection
        copy_tags_to_snapshot := kw.copy_tags_to_snapshot
        tags := kw.tags }
  else Except.error RdsErr.invalidParameterValue

/-- `describe_db_instances(identifier)[0]` (models.py:1768): the
`db-instance-id` filter matches on `db_instance_arn` or
`db_instance_identifier`, and the first matching instance (in dictionary
order) is returned together with its key. -/
def describeFirstInstance (s : RDSState) (ident : String) :
    Option (String × DBInstance) :=
  s.databases.find? (fun kd =>
    DBInstance.arn s.ctx kd.2 = ident || kd.2.db_instance_identifier = ident)

/-- `describe_db_clusters(identifier)[0]` (models.py:2430): the
`db-cluster-id` filter matches on `db_cluster_arn` or
`db_cluster_identifier`. -/
def describeFirstCluster (s : RDSState) (ident : String) :
    Option (String × DBCluster) :=
  s.clusters.find? (fun kc =>
    DBCluster.arn s.ctx kc.2 = ident || kc.2.db_cluster_identifier = ident)

/-- `RDSBackend.create_db_instance` (models.py:1638). -/
def create_db_instance (s : RDSState) (kw : DBInstanceKwargs) :
    Except RdsErr DBInstance × RDSState :=
  let database_id := kw.db_instance_identifier
  if dcontains s.databases database_id then
    (Except.error RdsErr.dbInstanceAlreadyExists, s)
  else if !validateDbIdentifier database_id then
    (Except.error RdsErr.invalidDBInstanceIdentifier, s)
  else
    match DBInstance.make kw with
    | Except.error e => (Except.error e, s)
    | Except.ok database =>
      match database.db_cluster_identifier with
      | some cluster_id =>
        match dlookup s.clusters cluster_id with
        | some cluster =>
          if serverlessEngines.contains cluster.engine &&
              cluster.engine_mode = "serverless" then
            (Except.error RdsErr.invalidParameterValue, s)
          else if database.engine ≠ cluster.engine then
            (Except.error (RdsErr.invalidDBInstanceEngine database.engine cluster.engine), s)
          else
            let cluster2 :=
              { cluster with cluster_members := cluster.cluster_members ++ [database_id] }
            (Except.ok database,
             { s with clusters := dinsert s.clusters cluster_id cluster2,
                      databases := dinsert s.databases database_id database })
        | none =>
          (Except.ok database,
           { s with databases := dinsert s.databases database_id database })
      | none =>
        (Except.ok database,
         { s with databases := dinsert s.databases database_id database })

/-- `RDSBackend.create_db_snapshot` (models.py:1673); the first argument is a
string identifier or an already-resolved instance, as in the Python
`Union[str, DBInstance]` signature. -/
def create_db_snapshot (s : RDSState) (db_instance : String ⊕ DBInstance)
    (db_snapshot_identifier : String) (snapshot_type : String)
    (tags : Option (List Tag)) : Except RdsErr DBSnapshot × RDSState :=
  let resolved : Except RdsErr DBInstance :=
    match db_instance with
    | Sum.inl ident =>
      match dlookup s.databases ident with
      | some database => Except.ok database
      | none => Except.error (RdsErr.dbInstanceNotFoundError ident)
    | Sum.inr database => Except.ok database
  match resolved with
  | Except.error e => (Except.error e, s)
  | Except.ok database =>
    if dcontains s.database_snapshots db_snapshot_identifier then
      (Except.error (RdsErr.dbSnapshotAlreadyExistsError db_snapshot_identifier), s)
    else if s.snapshot_limit ≤ s.database_snapshots.length then
      (Except.error RdsErr.snapshotQuotaExceededError, s)
    else
      let tags0 := tags.getD []
      let tags1 :=
        if database.copy_tags_to_snapshot && tags0.isEmpty then database.tags
        else tags0
      let snapshot : DBSnapshot :=
        { database := database
          snapshot_id := db_snapshot_identifier
          snapshot_type := snapshot_type
          tags := tags1
          status := "available" }
      (Except.ok snapshot,
       { s with database_snapshots :=
           dinsert s.database_snapshots db_snapshot_identifier snapshot })

/-- `RDSBackend.create_auto_snapshot` (models.py:1664). -/
def create_auto_snapshot (s : RDSState) (db_instance_identifier : String)
    (db_snapshot_identifier : String) : Except RdsErr DBSnapshot × RDSState :=
  create_db_snapshot s (Sum.inl db_instance_identifier) db_snapshot_identifier
    "automated" none

/-- `RDSBackend.stop_db_instance` (models.py:1919). -/
def stop_db_instance (s : RDSState) (db_instance_identifier : String)
    (db_snapshot_identifier : Option String) :
    Except RdsErr DBInstance × RDSState :=
  if !validateDbIdentifier db_instance_identifier then
    (Except.error RdsErr.invalidDBInstanceIdentifier, s)
  else
    match describeFirstInstance s db_instance_identifier with
    | none => (Except.error (RdsErr.dbInstanceNotFoundError db_instance_identifier), s)
    | some (key, database) =>
      if database.is_replica ||
          (database.multi_az && database.engine.toLower.startsWith "sqlserver") then
        (Except.error (RdsErr.invalidDBClusterStateFaultError db_instance_identifier), s)
      else if database.status ≠ "available" then
        (Except.error (RdsErr.invalidDBInstanceStateError db_instance_identifier "stop"), s)
      else
        let afterSnapshot : Except RdsErr Unit × RDSState :=
          match db_snapshot_identifier with
          | some snapId =>
            match create_auto_snapshot s db_instance_identifier snapId with
            | (Except.error e, s2) => (Except.error e, s2)
            | (Except.ok _, s2) => (Except.ok (), s2)
          | none => (Except.ok (), s)
        match afterSnapshot with
        | (Except.error e, s2) => (Except.error e, s2)
        | (Except.ok _, s2) =>
          let database2 := { database with status := "stopped" }
          (Except.ok database2,
           { s2 with databases := dinsert s2.databases key database2 })

/-- `RDSBackend.start_db_instance` (models.py:1938). -/
def start_db_instance (s : RDSState) (db_instance_identifier : String) :
    Except RdsErr DBInstance × RDSState :=
  if !validateDbIdentifier db_instance_identifier then
    (Except.error RdsErr.invalidDBInstanceIdentifier, s)
  else
    match describeFirstInstance s db_instance_identifier with
    | none => (Except.error (RdsErr.dbInstanceNotFoundError db_instance_identifier), s)
    | some (key, database) =>
      if database.status ≠ "stopped" then
        (Except.error (RdsErr.invalidDBInstanceStateError db_instance_identifier "start"), s)
      else
        let database2 := { database with status := "available" }
        (Except.ok database2,
         { s with databases := dinsert s.databases key database2 })

/-- Python `s.split(":")` (same result as Lean `String.splitOn ":"`, defined
on the character list so that it evaluates inside the kernel). -/
def splitColonChars : List Char → List (List Char)
  | [] => [[]]
  | c :: rest =>
    let r := splitColonChars rest
    if c = ':' then [] :: r
    else
      match r with
      | h :: t => (c :: h) :: t
      | [] => [[c]]

/-- Python `s.split(":")` as strings. -/
def pySplitColon (s : String) : List String :=
  (splitColonChars s.data).map String.mk

/-- `RDSBackend.find_db_from_id` (models.py:1947): an ARN-shaped id is looked
up under its final segment (Python also switches to the regional backend named
in the ARN; the model has a single backend).  Returns the key and instance. -/
def find_db_from_id (s : RDSState) (db_id : String) :
    Option (String × DBInstance) :=
  let db_name :=
    if arnRegexMatch db_id then ((pySplitColon db_id).getLast?).getD db_id
    else db_id
  describeFirstInstance s db_name

/-- The automated-snapshot block of `delete_db_instance`
(models.py:1960-1963): when a final snapshot name is supplied,
`create_auto_snapshot` runs before the instance is popped, and any of its
errors aborts the deletion. -/
def deleteSnapshotStep (s : RDSState) (db_instance_identifier : String)
    (db_snapshot_name : Option String) : Except RdsErr Unit × RDSState :=
  match db_snapshot_name with
  | some snapId =>
    match create_auto_snapshot s db_instance_identifier snapId with
    | (Except.error e, s2) => (Except.error e, s2)
    | (Except.ok _, s2) => (Except.ok (), s2)
  | none => (Except.ok (), s)

/-- The replica-bookkeeping block of `delete_db_instance`
(models.py:1965-1971): if the deleted instance is a read replica, locate the
primary through `find_db_from_id` and drop the deleted identifier from the
primary `replicas` list. -/
def deleteReplicaStep (s3 : RDSState) (database : DBInstance) :
    Except RdsErr Unit × RDSState :=
  if database.is_replica then
    match database.source_db_identifier with
    | none => (Except.error RdsErr.pythonTypeError, s3)
    | some src =>
      match find_db_from_id s3 src with
      | none => (Except.error (RdsErr.dbInstanceNotFoundError src), s3)
      | some (pk, primary) =>
        if database.db_instance_identifier ∈ primary.replicas then
          let primary2 :=
            { primary with replicas :=
                removeFirst primary.replicas database.db_instance_identifier }
          (Except.ok (), { s3 with databases := dinsert s3.databases pk primary2 })
        else (Except.error RdsErr.pythonValueError, s3)
  else (Except.ok (), s3)

/-- The cluster-membership block of `delete_db_instance`
(models.py:1973-1977): remove the deleted identifier from its DB cluster
member list, mirroring `list.remove` raising `ValueError` when absent. -/
def deleteClusterStep (s4 : RDSState) (database : DBInstance)
    (db_instance_identifier : String) : Except RdsErr DBInstance × RDSState :=
  match database.db_cluster_identifier with
  | some cluster_id =>
    match dlookup s4.clusters cluster_id with
    | some cluster =>
      if db_instance_identifier ∈ cluster.cluster_members then
        let cluster2 :=
          { cluster with cluster_members :=
              removeFirst cluster.cluster_members db_instance_identifier }
        (Except.ok { database with status := "deleting" },
         { s4 with clusters := dinsert s4.clusters cluster_id cluster2 })
      else (Except.error RdsErr.pythonValueError, s4)
    | none => (Except.ok { database with status := "deleting" }, s4)
  | none => (Except.ok { database with status := "deleting" }, s4)

/-- `RDSBackend.delete_db_instance` (models.py:1959).  The auto-snapshot is
taken before the instance is popped; the replica bookkeeping and the
cluster-membership removal happen after the pop, so their Python exceptions
(`DBInstanceNotFoundError` from `find_db_from_id`, `ValueError` from
`list.remove`, `TypeError` from matching `None` against the ARN regex) leave
the instance already removed. -/
def delete_db_instance (s : RDSState) (db_instance_identifier : String)
    (db_snapshot_name : Option String) : Except RdsErr DBInstance × RDSState :=
  if !validateDbIdentifier db_instance_identifier then
    (Except.error RdsErr.invalidDBInstanceIdentifier, s)
  else
    match dlookup s.databases db_instance_identifier with
    | none => (Except.error (RdsErr.dbInstanceNotFoundError db_instance_identifier), s)
    | some database =>
      if database.deletion_protection then
        (Except.error RdsErr.invalidParameterValue, s)
      else
        match deleteSnapshotStep s db_instance_identifier db_snapshot_name with
        | (Except.error e, s2) => (Except.error e, s2)
        | (Except.ok _, s2) =>
          let s3 := { s2 with databases := derase s2.databases db_instance_identifier }
          match deleteReplicaStep s3 database with
          | (Except.error e, s4) => (Except.error e, s4)
          | (Except.ok _, s4) => deleteClusterStep s4 database db_instance_identifier

/-- The keyword arguments of `modify_db_instance` that the model tracks.  The
remaining modifiable attributes (windows, password rotation, log exports, ...)
play no part in the modelled claims. -/
structure ModifyDBInstanceKwargs where
  new_db_instance_identifier : Option String
deriving DecidableEq, Repr

/-- `RDSBackend.modify_db_instance` (models.py:1803).  When a new identifier
is supplied, the instance is removed from the dictionary under the old key and
stored under the new one, and `database.update` sets the new identifier on the
object; nothing touches the `cluster_members` of any cluster. -/
def modify_db_instance (s : RDSState) (db_instance_identifier : String)
    (kw : ModifyDBInstanceKwargs) : Except RdsErr DBInstance × RDSState :=
  match describeFirstInstance s db_instance_identifier with
  | none => (Except.error (RdsErr.dbInstanceNotFoundError db_instance_identifier), s)
  | some (_, database) =>
    match kw.new_db_instance_identifier with
    | some newId =>
      if dcontains s.databases db_instance_identifier then
        let database2 := { database with db_instance_identifier := newId }
        (Except.ok database2,
         { s with databases :=
             dinsert (derase s.databases db_instance_identifier) newId database2 })
      else (Except.error RdsErr.pythonKeyError, s)
    | none => (Except.ok database, s)

/-! ## Cluster snapshots (models.py:2358-2428) -/

/-- `RDSBackend._create_db_cluster_snapshot` (models.py:2365). -/
def _create_db_cluster_snapshot (s : RDSState) (cluster : DBCluster)
    (db_snapshot_identifier : String) (snapshot_type : String)
    (tags : List Tag) : Except RdsErr DBClusterSnapshot × RDSState :=
  if dcontains s.cluster_snapshots db_snapshot_identifier then
    (Except.error (RdsErr.dbClusterSnapshotAlreadyExistsError db_snapshot_identifier), s)
  else if s.snapshot_limit ≤ s.cluster_snapshots.length then
    (Except.error RdsErr.snapshotQuotaExceededError, s)
  else
    let snapshot : DBClusterSnapshot :=
      { cluster := cluster
        snapshot_id := db_snapshot_identifier
        snapshot_type := snapshot_type
        tags := tags
        status := "available" }
    (Except.ok snapshot,
     { s with cluster_snapshots :=
         dinsert s.cluster_snapshots db_snapshot_identifier snapshot })

/-- `RDSBackend.create_db_cluster_snapshot` (models.py:2384). -/
def create_db_cluster_snapshot (s : RDSState) (db_cluster_identifier : String)
    (db_snapshot_identifier : String) (snapshot_type : String)
    (tags : Option (List Tag)) : Except RdsErr DBClusterSnapshot × RDSState :=
  match dlookup s.clusters db_cluster_identifier with
  | none => (Except.error (RdsErr.dbClusterNotFoundError db_cluster_identifier), s)
  | some cluster =>
    let tags0 := tags.getD []
    let tags1 := if cluster.copy_tags_to_snapshot then tags0 ++ cluster.tags else tags0
    _create_db_cluster_snapshot s cluster db_snapshot_identifier snapshot_type tags1

/-- `RDSBackend.create_auto_cluster_snapshot` (models.py:2358). -/
def create_auto_cluster_snapshot (s : RDSState) (db_cluster_identifier : String)
    (db_snapshot_identifier : String) : Except RdsErr DBClusterSnapshot × RDSState :=
  create_db_cluster_snapshot s db_cluster_identifier db_snapshot_identifier
    "automated" none

/-! ## Cluster lifecycle (models.py:2277-2494) -/

/-- The global-cluster membership step of `create_db_cluster`
(models.py:2282): when the new cluster names an existing global cluster, it is
appended to the members of that global cluster and marked as writer exactly when it
is the first member; the stored cluster object is updated in place.  (The
model has a single backend, so the scan over the regional backends of the account
reduces to the `global_clusters` of this backend.) -/
def createClusterGlobalStep (s1 : RDSState) (cluster_id : String)
    (c0 : DBCluster) : DBCluster × RDSState :=
  match c0.global_cluster_identifier with
  | some g =>
    match dlookup s1.global_clusters g with
    | some gc =>
      let gc2 := { gc with members := gc.members ++ [cluster_id] }
      let cluster1 := { c0 with is_writer := gc2.members.length = 1 }
      (cluster1,
       { s1 with global_clusters := dinsert s1.global_clusters g gc2,
                 clusters := dinsert s1.clusters cluster_id cluster1 })
    | none => (c0, s1)
  | none => (c0, s1)

/-- The replication-source step of `create_db_cluster` (models.py:2299):
`find_cluster` parses the identifier as an ARN and resolves it through
`describe_db_clusters`, raising `DBClusterNotFoundError` when nothing matches
(and `IndexError` when the identifier has fewer than five colon-separated
parts); `read_replica_identifiers` of the resolved cluster gains the ARN of the new
cluster. -/
def createClusterReplicationStep (s2 : RDSState) (c1 : DBCluster) :
    Except RdsErr Unit × RDSState :=
  match c1.replication_source_identifier with
  | some src =>
    if (pySplitColon src).length < 5 then (Except.error RdsErr.pythonIndexError, s2)
    else
      match describeFirstCluster s2 src with
      | none => (Except.error (RdsErr.dbClusterNotFoundError src), s2)
      | some (okey, original) =>
        let original2 :=
          { original with read_replica_identifiers :=
              original.read_replica_identifiers ++ [DBCluster.arn s2.ctx c1] }
        (Except.ok (), { s2 with clusters := dinsert s2.clusters okey original2 })
  | none => (Except.ok (), s2)

/-- `RDSBackend.create_db_cluster` (models.py:2277).  The cluster is stored
first; global-cluster membership and replication-source bookkeeping mutate the
stored objects.  Finally the status of the stored cluster is flipped to
`"available"` while a deep copy still reading `"creating"` is returned. -/
def create_db_cluster (s : RDSState) (kw : DBClusterKwargs) :
    Except RdsErr DBCluster × RDSState :=
  match DBCluster.make kw with
  | Except.error e => (Except.error e, s)
  | Except.ok cluster0 =>
    let cluster_id := kw.db_cluster_identifier
    let s1 := { s with clusters := dinsert s.clusters cluster_id cluster0 }
    match createClusterGlobalStep s1 cluster_id cluster0 with
    | (cluster1, s2) =>
      match createClusterReplicationStep s2 cluster1 with
      | (Except.error e, s3) => (Except.error e, s3)
      | (Except.ok _, s3) =>
        -- re-read the stored object (the replication step may have aliased it)
        let clusterF := (dlookup s3.clusters cluster_id).getD cluster1
        (Except.ok clusterF,
         { s3 with clusters :=
             dinsert s3.clusters cluster_id { clusterF with _status := "available" } })

/-- `RDSBackend.start_db_cluster` (models.py:2481).  The status comparison
reads the mutating `status` property of the stored cluster. -/
def start_db_cluster (s : RDSState) (cluster_identifier : String) :
    Except RdsErr DBCluster × RDSState :=
  match dlookup s.clusters cluster_identifier with
  | none => (Except.error (RdsErr.dbClusterNotFoundError cluster_identifier), s)
  | some cluster =>
    let (st, cluster2) := cluster.statusRead
    let s2 := { s with clusters := dinsert s.clusters cluster_identifier cluster2 }
    if st ≠ "stopped" then
      (Except.error (RdsErr.invalidDBClusterStateFault cluster_identifier), s2)
    else
      let temp_state := { cluster2 with _status := "started" }
      (Except.ok temp_state,
       { s2 with clusters :=
           dinsert s2.clusters cluster_identifier { cluster2 with _status := "available" } })

/-- `RDSBackend.remove_from_global_cluster` (models.py:2796): every exception
(missing global cluster, missing member cluster, `ValueError` from
`list.remove`) is swallowed by the bare `except`, leaving the state as it
was. -/
def remove_from_global_cluster (s : RDSState) (global_cluster_identifier : String)
    (db_cluster_identifier : String) : RDSState :=
  match dlookup s.global_clusters global_cluster_identifier with
  | none => s
  | some gc =>
    match describeFirstCluster s db_cluster_identifier with
    | none => s
    | some _ =>
      if db_cluster_identifier ∈ gc.members then
        let gc2 := { gc with members := removeFirst gc.members db_cluster_identifier }
        { s with global_clusters :=
            dinsert s.global_clusters global_cluster_identifier gc2 }
      else s

/-- `RDSBackend.delete_db_cluster` (models.py:2461). -/
def delete_db_cluster (s : RDSState) (cluster_identifier : String)
    (snapshot_name : Option String) : Except RdsErr DBCluster × RDSState :=
  match dlookup s.clusters cluster_identifier with
  | none => (Except.error (RdsErr.dbClusterNotFoundError cluster_identifier), s)
  | some cluster =>
    if cluster.deletion_protection then
      (Except.error RdsErr.invalidParameterValue, s)
    else if cluster.cluster_members ≠ [] then
      (Except.error RdsErr.dbClusterToBeDeletedHasActiveMembers, s)
    else
      -- `global_id = cluster.global_cluster_identifier or ""`
      let global_id := (cluster.global_cluster_identifier).getD ""
      let s2 :=
        if dcontains s.global_clusters global_id then
          remove_from_global_cluster s global_id cluster_identifier
        else s
      let afterSnapshot : Except RdsErr Unit × RDSState :=
        match snapshot_name with
        | some snapId =>
          match create_auto_cluster_snapshot s2 cluster_identifier snapId with
          | (Except.error e, s3) => (Except.error e, s3)
          | (Except.ok _, s3) => (Except.ok (), s3)
        | none => (Except.ok (), s2)
      match afterSnapshot with
      | (Except.error e, s3) => (Except.error e, s3)
      | (Except.ok _, s3) =>
        (Except.ok cluster, { s3 with clusters := derase s3.clusters cluster_identifier })

/-! ## `_find_resource` and the tagging operations (models.py:2598-2644) -/

/-- `arn.split(":")[-2]` after a successful regex match (a matching ARN has at
least seven segments, so the default is never used). -/
def arnResourceType (arn : String) : String :=
  let parts := pySplitColon arn
  parts.getD (parts.length - 2) ""

/-- `arn.split(":")[-1]`. -/
def arnResourceName (arn : String) : String :=
  let parts := pySplitColon arn
  parts.getD (parts.length - 1) ""

/-- Python `str.endswith` (note `x.endswith("")` is `True`). -/
def pyEndsWith (s : String) (t : String) : Bool :=
  List.isSuffixOf t.data s.data

/-- `RDSBackend._find_resource` (models.py:2598), reduced to what the tagging
operations use of the found resource: its current tag list, and the state
update that replaces that tag list (`resource.add_tags` / `remove_tags`
mutate the stored object in place).  The `resource_map` is iterated in its
insertion order; each entry is consulted only when the `resource_type` of its
class equals the requested one (`ExportTask` contributes `""`, the `getattr`
default).  When the loop finds nothing and the type is `db-proxy`, the
proxies are scanned for an ARN ending in the resource name. -/
def findResource (s : RDSState) (resource_type : String)
    (resource_name : String) :
    Option (List Tag × ((List Tag → List Tag) → RDSState)) :=
  if resource_type = "cluster" && dcontains s.clusters resource_name then
    (match dlookup s.clusters resource_name with
     | some r =>
       some (r.tags, fun f =>
         { s with clusters :=
             dinsert s.clusters resource_name { r with tags := f r.tags } })
     | none => none)
  else
  if resource_type = "cluster-pg" && dcontains s.db_cluster_parameter_groups resource_name then
    (match dlookup s.db_cluster_parameter_groups resource_name with
     | some r =>
       some (r.tags, fun f =>
         { s with db_cluster_parameter_groups :=
             dinsert s.db_cluster_parameter_groups resource_name { r with tags := f r.tags } })
     | none => none)
  else
  if resource_type = "cluster-snapshot" && dcontains s.cluster_snapshots resource_name then
    (match dlookup s.cluster_snapshots resource_name with
     | some r =>
       some (r.tags, fun f =>
         { s with cluster_snapshots :=
             dinsert s.cluster_snapshots resource_name { r with tags := f r.tags } })
     | none => none)
  else
  if resource_type = "db" && dcontains s.databases resource_name then
    (match dlookup s.databases resource_name with
     | some r =>
       some (r.tags, fun f =>
         { s with databases :=
             dinsert s.databases resource_name { r with tags := f r.tags } })
     | none => none)
  else
  if resource_type = "pg" && dcontains s.db_parameter_groups resource_name then
    (match dlookup s.db_parameter_groups resource_name with
     | some r =>
       some (r.tags, fun f =>
         { s with db_parameter_groups :=
             dinsert s.db_parameter_groups resource_name { r with tags := f r.tags } })
     | none => none)
  else
  if resource_type = "db-proxy" && dcontains s.db_proxies resource_name then
    (match dlookup s.db_proxies resource_name with
     | some r =>
       some (r.tags, fun f =>
         { s with db_proxies :=
             dinsert s.db_proxies resource_name { r with tags := f r.tags } })
     | none => none)
  else
  if resource_type = "secgrp" && dcontains s.security_groups resource_name then
    (match dlookup s.security_groups resource_name with
     | some r =>
       some (r.tags, fun f =>
         { s with security_groups :=
             dinsert s.security_groups resource_name { r with tags := f r.tags } })
     | none => none)
  else
  if resource_type = "snapshot" && dcontains s.database_snapshots resource_name then
    (match dlookup s.database_snapshots resource_name with
     | some r =>
       some (r.tags, fun f =>
         { s with database_snapshots :=
             dinsert s.database_snapshots resource_name { r with tags := f r.tags } })
     | none => none)
  else
  if resource_type = "subgrp" && dcontains s.subnet_groups resource_name then
    (match dlookup s.subnet_groups resource_name with
     | some r =>
       some (r.tags, fun f =>
         { s with subnet_groups :=
             dinsert s.subnet_groups resource_name { r with tags := f r.tags } })
     | none => none)
  else
  if resource_type = "es" && dcontains s.event_subscriptions resource_name then
    (match dlookup s.event_subscriptions resource_name with
     | some r =>
       some (r.tags, fun f =>
         { s with event_subscriptions :=
             dinsert s.event_subscriptions resource_name { r with tags := f r.tags } })
     | none => none)
  else
  if resource_type = "" && dcontains s.export_tasks resource_name then
    (match dlookup s.export_tasks resource_name with
     | some r =>
       some (r.tags, fun f =>
         { s with export_tasks :=
             dinsert s.export_tasks resource_name { r with tags := f r.tags } })
     | none => none)
  else
  if resource_type = "global-cluster" && dcontains s.global_clusters resource_name then
    (match dlookup s.global_clusters resource_name with
     | some r =>
       some (r.tags, fun f =>
         { s with global_clusters :=
             dinsert s.global_clusters resource_name { r with tags := f r.tags } })
     | none => none)
  else
  if resource_type = "og" && dcontains s.option_groups resource_name then
    (match dlookup s.option_groups resource_name with
     | some r =>
       some (r.tags, fun f =>
         { s with option_groups :=
             dinsert s.option_groups resource_name { r with tags := f r.tags } })
     | none => none)
  else
  if resource_type = "db-proxy" then
    (match s.db_proxies.find? (fun kp =>
        pyEndsWith (DBProxy.arn s.ctx kp.2) resource_name) with
     | some kp =>
       some (kp.2.tags, fun f =>
         { s with db_proxies :=
             dinsert s.db_proxies kp.1 { kp.2 with tags := f kp.2.tags } })
     | none => none)
  else none

/-- The tag list `_find_resource` exposes (`resource.get_tags()`). -/
def findResourceTags (s : RDSState) (resource_type : String)
    (resource_name : String) : Option (List Tag) :=
  (findResource s resource_type resource_name).map (fun rf => rf.1)

/-- The state after applying `f` to the tag list of the found resource (the
identity when nothing is found). -/
def updateResourceTags (s : RDSState) (resource_type : String)
    (resource_name : String) (f : List Tag → List Tag) : RDSState :=
  match findResource s resource_type resource_name with
  | some rf => rf.2 f
  | none => s

/-- `RDSBackend.list_tags_for_resource` (models.py:2611). -/
def list_tags_for_resource (s : RDSState) (arn : String) :
    Except RdsErr (List Tag) :=
  if arnRegexMatch arn then
    match findResourceTags s (arnResourceType arn) (arnResourceName arn) with
    | some tags => Except.ok tags
    | none => Except.ok []
  else
    Except.error (RdsErr.rdsClientError "InvalidParameterValue"
      ("Invalid resource name: " ++ arn))

/-- `RDSBackend.remove_tags_from_resource` (models.py:2622). -/
def remove_tags_from_resource (s : RDSState) (arn : String)
    (tag_keys : List String) : Except RdsErr Unit × RDSState :=
  if arnRegexMatch arn then
    (Except.ok (),
     updateResourceTags s (arnResourceType arn) (arnResourceName arn)
       (fun cur => removeTags cur tag_keys))
  else
    (Except.error (RdsErr.rdsClientError "InvalidParameterValue"
       ("Invalid resource name: " ++ arn)), s)

/-- `RDSBackend.add_tags_to_resource` (models.py:2633). -/
def add_tags_to_resource (s : RDSState) (arn : String) (tags : List Tag) :
    Except RdsErr (List Tag) × RDSState :=
  if arnRegexMatch arn then
    match findResourceTags s (arnResourceType arn) (arnResourceName arn) with
    | some cur =>
      (Except.ok (addTags cur tags),
       updateResourceTags s (arnResourceType arn) (arnResourceName arn)
         (fun cur2 => addTags cur2 tags))
    | none => (Except.ok [], s)
  else
    (Except.error (RdsErr.rdsClientError "InvalidParameterValue"
       ("Invalid resource name: " ++ arn)), s)

/-! ## Concrete fixtures used by witnesses and counterexamples -/

/-- A concrete backend identity. -/
def ctx0 : BackendCtx :=
  { region_name := "us-east-1", account_id := "123456789012", partition := "aws" }

/-- A freshly initialized backend (all resource dictionaries empty, default
snapshot limit). -/
def emptyRds : RDSState :=
  { ctx := ctx0
    snapshot_limit := 100
    clusters := []
    global_clusters := []
    databases := []
    database_snapshots := []
    cluster_snapshots := []
    db_parameter_groups := []
    db_cluster_parameter_groups := []
    option_groups := []
    security_groups := []
    subnet_groups := []
    event_subscriptions := []
    db_proxies := []
    export_tasks := [] }

/-- A concrete global cluster. -/
def gcFixture : GlobalCluster :=
  { global_cluster_identifier := "gc1"
    engine := "aurora-mysql"
    members := []
    status := "available"
    deletion_protection := false
    tags := [] }

/-- The `create_db_instance` arguments used to exhibit the C4 validator bug:
the identifier carries a trailing newline. -/
def kwC4 : DBInstanceKwargs :=
  { db_instance_identifier := "ab\n"
    engine := "mysql"
    db_cluster_identifier := none
    source_db_instance_identifier := none
    multi_az := false
    deletion_protection := false
    copy_tags_to_snapshot := false
    tags := [] }

/-- A stored DB instance used by several witnesses. -/
def dbFixture : DBInstance :=
  { db_instance_identifier := "db1"
    engine := "mysql"
    status := "available"
    is_replica := false
    replicas := []
    multi_az := false
    db_cluster_identifier := none
    source_db_identifier := none
    deletion_protection := false
    copy_tags_to_snapshot := false
    tags := [] }

/-- A backend holding one available DB instance `db1` and whose snapshot
limit is exhausted (`MOTO_RDS_SNAPSHOT_LIMIT=0`). -/
def rdsQuotaFull : RDSState :=
  { emptyRds with snapshot_limit := 0, databases := [("db1", dbFixture)] }

/-- A concrete stored cluster (no protection, no members). -/
def clusterFixture : DBCluster :=
  { db_cluster_identifier := "c1"
    engine := "aurora-mysql"
    engine_version := "5.7.mysql_aurora.2.07.2"
    engine_mode := "provisioned"
    port := 3306
    _status := "available"
    deletion_protection := false
    cluster_members := []
    global_cluster_identifier := none
    replication_source_identifier := none
    read_replica_identifiers := []
    is_writer := false
    copy_tags_to_snapshot := false
    master_username := some "admin"
    _master_user_password := some "password1"
    backtrack_window := 0
    iam_auth := false
    tags := [] }

/-- A backend holding the one cluster `c1`. -/
def rdsWithCluster : RDSState :=
  { emptyRds with clusters := [("c1", clusterFixture)] }

/-- A backend holding the one available DB instance `db1`. -/
def rdsWithDb : RDSState :=
  { emptyRds with databases := [("db1", dbFixture)] }

/-- The `create_db_cluster` arguments used by the C7 witness: a Neptune
cluster with no explicit port. -/
def kwNeptune : DBClusterKwargs :=
  { db_cluster_identifier := "nep1"
    engine := some "neptune"
    engine_version := none
    engine_mode := none
    port := none
    master_username := none
    master_user_password := none
    global_cluster_identifier := none
    replication_source_identifier := none
    deletion_protection := none
    copy_tags_to_snapshot := none
    backtrack_window := none
    enable_iam_database_authentication := none
    tags := [] }

/-- A backend holding the one stopped cluster `c1`. -/
def rdsWithStoppedCluster : RDSState :=
  { emptyRds with clusters := [("c1", { clusterFixture with _status := "stopped" })] }

/-- The referential-integrity invariant of C2, as the claim states it: every
identifier in the `cluster_members` list of a stored DB cluster is a key of
the `databases` dictionary. -/
def membersExist (s : RDSState) : Bool :=
  s.clusters.all fun kc =>
    kc.2.cluster_members.all fun m => dcontains s.databases m

/-- The full (inductive) referential-integrity invariant the backend
maintains: dictionary keys are unique, member lists are duplicate-free, and
every member names a stored instance that points back to that cluster and is
not a read replica. -/
def rdsInvariant (s : RDSState) : Bool :=
  decide (dkeys s.databases).Nodup && decide (dkeys s.clusters).Nodup &&
  (s.clusters.all fun kc =>
    decide kc.2.cluster_members.Nodup &&
    kc.2.cluster_members.all fun m =>
      match dlookup s.databases m with
      | some db => db.db_cluster_identifier == some kc.1 && !db.is_replica
      | none => false)

/-- `rdsInvariant`, restated over `dlookup` (the two agree because the key
lists are duplicate-free). -/
def InvProp (s : RDSState) : Prop :=
  (dkeys s.databases).Nodup ∧ (dkeys s.clusters).Nodup ∧
  ∀ ck c, dlookup s.clusters ck = some c →
    c.cluster_members.Nodup ∧
    ∀ m ∈ c.cluster_members, ∃ db, dlookup s.databases m = some db ∧
      db.db_cluster_identifier = some ck ∧ db.is_replica = false

/-- The cluster-creation arguments for the C2 scenario: an Aurora MySQL
cluster `c1` with valid master credentials. -/
def kwC2Cluster : DBClusterKwargs :=
  { db_cluster_identifier := "c1"
    engine := some "aurora-mysql"
    engine_version := none
    engine_mode := none
    port := none
    master_username := some "admin"
    master_user_password := some "password123"
    global_cluster_identifier := none
    replication_source_identifier := none
    deletion_protection := none
    copy_tags_to_snapshot := none
    backtrack_window := none
    enable_iam_database_authentication := none
    tags := [] }

/-- The instance-creation arguments for the C2 scenario: instance `db1`
joining cluster `c1`. -/
def kwC2Instance : DBInstanceKwargs :=
  { db_instance_identifier := "db1"
    engine := "aurora-mysql"
    db_cluster_identifier := some "c1"
    source_db_instance_identifier := none
    multi_az := false
    deletion_protection := false
    copy_tags_to_snapshot := false
    tags := [] }

/-- The backend after creating cluster `c1`. -/
def c2s1 : RDSState := (create_db_cluster emptyRds kwC2Cluster).2

/-- The backend after additionally creating instance `db1` inside `c1`. -/
def c2s2 : RDSState := (create_db_instance c2s1 kwC2Instance).2

/-- Renaming `db1` to `db2` through `modify_db_instance`. -/
def c2sModify : Except RdsErr DBInstance × RDSState :=
  modify_db_instance c2s2 "db1" { new_db_instance_identifier := some "db2" }

theorem dlookup_dinsert {α : Type} (d : Dict α) (k : String) (v : α) (m : String) :
    dlookup (dinsert d k v) m = if k = m then some v else dlookup d m := by
  induction d with
  | nil => simp [dinsert, dlookup]
  | cons hd tl ih =>
    obtain ⟨hk, hv⟩ := hd
    by_cases h1 : hk = k
    · subst h1
      by_cases h2 : hk = m <;> simp [dinsert, dlookup, h2]
    · by_cases h2 : hk = m
      · subst h2
        simp [dinsert, dlookup, h1, Ne.symm h1]
      · simp [dinsert, dlookup, h1, h2, ih]

theorem mem_dkeys_iff_lookup {α : Type} (d : Dict α) (k : String) :
    k ∈ dkeys d ↔ (dlookup d k).isSome := by
  induction d with
  | nil => simp [dkeys, dlookup]
  | cons hd tl ih =>
    obtain ⟨dk, dv⟩ := hd
    by_cases h1 : dk = k
    · subst h1; simp [dkeys, dlookup]
    · simp [dkeys, dlookup, h1, Ne.symm h1] at ih ⊢
      exact ih

theorem dlookup_mem_keys {α : Type} {d : Dict α} {k : String} {v : α}
    (h : dlookup d k = some v) : k ∈ dkeys d := by
  rw [mem_dkeys_iff_lookup, h]
  rfl

theorem mem_dkeys_dinsert {α : Type} (d : Dict α) (k : String) (v : α)
    (m : String) : m ∈ dkeys (dinsert d k v) ↔ m ∈ dkeys d ∨ m = k := by
  rw [mem_dkeys_iff_lookup, mem_dkeys_iff_lookup, dlookup_dinsert]
  by_cases h : k = m
  · subst h; simp
  · rw [if_neg h]
    constructor
    · exact Or.inl
    · rintro (hm | hm)
      · exact hm
      · exact absurd hm.symm h

theorem mem_dkeys_derase {α : Type} (d : Dict α) (k m : String)
    (h : m ∈ dkeys (derase d k)) : m ∈ dkeys d := by
  induction d with
  | nil => simpa [derase] using h
  | cons hd tl ih =>
    obtain ⟨dk, dv⟩ := hd
    by_cases h1 : dk = k
    · subst h1
      simp only [derase, if_pos rfl] at h
      simp [dkeys]
      right
      simpa [dkeys] using h
    · simp only [derase, if_neg h1, dkeys, List.map_cons, List.mem_cons] at h ⊢
      rcases h with h2 | h2
      · exact Or.inl h2
      · exact Or.inr (ih h2)

theorem dlookup_derase {α : Type} (d : Dict α) (hk : (dkeys d).Nodup)
    (k m : String) :
    dlookup (derase d k) m = if k = m then none else dlookup d m := by
  induction d with
  | nil => simp [derase, dlookup]
  | cons hd tl ih =>
    obtain ⟨dk, dv⟩ := hd
    simp only [dkeys, List.map_cons, List.nodup_cons] at hk
    by_cases h1 : dk = k
    · subst h1
      by_cases h2 : dk = m
      · subst h2
        have hnone : dlookup tl dk = none := by
          cases hdl : dlookup tl dk with
          | none => rfl
          | some v =>
            exact absurd (dlookup_mem_keys hdl) (by simpa [dkeys] using hk.1)
        simp [derase, dlookup, hnone]
      · simp [derase, dlookup, h2, Ne.symm h2]
    · by_cases h2 : dk = m
      · subst h2
        simp [derase, dlookup, h1, Ne.symm h1]
      · simp [derase, dlookup, h1, h2, ih hk.2]

theorem dkeys_dinsert_nodup {α : Type} (d : Dict α) (k : String) (v : α)
    (h : (dkeys d).Nodup) : (dkeys (dinsert d k v)).Nodup := by
  induction d with
  | nil => simp [dinsert, dkeys]
  | cons hd tl ih =>
    obtain ⟨dk, dv⟩ := hd
    simp only [dkeys, List.map_cons, List.nodup_cons] at h
    by_cases h1 : dk = k
    · subst h1
      have heq : dinsert ((dk, dv) :: tl) dk v = (dk, v) :: tl := by
        simp [dinsert]
      rw [heq]
      simp only [dkeys, List.map_cons, List.nodup_cons]
      exact h
    · have heq : dinsert ((dk, dv) :: tl) k v = (dk, dv) :: dinsert tl k v := by
        simp [dinsert, h1]
      rw [heq]
      simp only [dkeys, List.map_cons, List.nodup_cons]
      refine ⟨?_, ih h.2⟩
      intro hmem
      rcases (mem_dkeys_dinsert tl k v dk).mp hmem with h4 | h4
      · exact h.1 h4
      · exact h1 h4

theorem dkeys_derase_nodup {α : Type} (d : Dict α) (k : String)
    (h : (dkeys d).Nodup) : (dkeys (derase d k)).Nodup := by
  induction d with
  | nil => simp [derase, dkeys]
  | cons hd tl ih =>
    obtain ⟨dk, dv⟩ := hd
    simp only [dkeys, List.map_cons, List.nodup_cons] at h
    by_cases h1 : dk = k
    · subst h1
      have heq : derase ((dk, dv) :: tl) dk = tl := by simp [derase]
      rw [heq]
      exact h.2
    · have heq : derase ((dk, dv) :: tl) k = (dk, dv) :: derase tl k := by
        simp [derase, h1]
      rw [heq]
      simp only [dkeys, List.map_cons, List.nodup_cons]
      exact ⟨fun hmem => h.1 (mem_dkeys_derase tl k dk hmem), ih h.2⟩

theorem mem_removeFirst {l : List String} {x y : String}
    (h : x ∈ removeFirst l y) : x ∈ l := by
  induction l with
  | nil => simp [removeFirst] at h
  | cons hd tl ih =>
    by_cases h1 : hd = y
    · subst h1
      simp only [removeFirst, if_pos rfl] at h
      exact List.mem_cons_of_mem _ h
    · simp only [removeFirst, if_neg h1, List.mem_cons] at h ⊢
      rcases h with h2 | h2
      · exact Or.inl h2
      · exact Or.inr (ih h2)

theorem removeFirst_eq_erase (l : List String) (y : String) :
    removeFirst l y = l.erase y := by
  induction l with
  | nil => simp [removeFirst]
  | cons hd tl ih =>
    by_cases h1 : hd = y
    · subst h1; simp [removeFirst, List.erase_cons]
    · simp [removeFirst, List.erase_cons, h1, ih]

theorem removeFirst_nodup {l : List String} (y : String) (h : l.Nodup) :
    (removeFirst l y).Nodup := by
  rw [removeFirst_eq_erase]
  exact h.erase y

theorem mem_removeFirst_ne {l : List String} {x y : String} (hn : l.Nodup)
    (h : x ∈ removeFirst l y) : x ≠ y := by
  rw [removeFirst_eq_erase] at h
  exact (List.Nodup.mem_erase_iff hn |>.mp h).1

example : validateDbIdentifier "a" = true := by decide

example : validateDbIdentifier "ab" = true := by decide

example : validateDbIdentifier "a-b-c" = true := by decide

example : validateDbIdentifier "1a" = false := by decide

example : validateDbIdentifier "-a" = false := by decide

example : validateDbIdentifier "a-" = false := by decide

example : validateDbIdentifier "a--b" = false := by decide

example : validateDbIdentifier "" = false := by decide

example : validateDbIdentifier "a.b" = false := by decide

example : validateDbIdentifier "a_b" = false := by decide

-- the two divergent inputs: a single trailing newline is accepted
example : validateDbIdentifier "ab\n" = true := by decide

example : validateDbIdentifier "a\n" = true := by decide

example : validateDbIdentifier "ab\n\n" = false := by decide

example : validateDbIdentifier "a\nb" = false := by decide

example : arnRegexMatch "arn:aws:rds:us-east-1:123456789012:db:foo" = true := by decide

example : arnRegexMatch "arn:aws:rds:::db:foo" = true := by decide

example : arnRegexMatch "arn:aws:rds:a:12:db:foo" = true := by decide

example : arnRegexMatch "arn:aws:rds:a:b:db:foo" = false := by decide

example : arnRegexMatch "arn:aws:rds:a:12:dbfoo:bar" = false := by decide

example : arnRegexMatch "arn:aws:rds:a:12:db:" = true := by decide

example : arnRegexMatch "arn:aws:rds:a:12:db" = false := by decide

example : arnRegexMatch "arn:aws:rds:a:12:cluster-snapshot:x" = true := by decide

example : arnRegexMatch "arn:aws:rds:a:12:db:foo\n" = true := by decide

example : arnRegexMatch "arn:aws:rds:a:12:db:foo\nbar" = false := by decide

example : arnRegexMatch "arn:Aws:rds:a:12:db:foo" = false := by decide

example : arnRegexMatch "arn::rds:a:12:db:foo" = false := by decide

example : arnRegexMatch "arn:aws:rds:x:y:12:db:foo" = true := by decide

example : arnRegexMatch "Xarn:aws:rds:a:12:db:foo" = false := by decide

example : arnRegexMatch "arn:aws:rds:a:1x2:db:foo" = false := by decide

example : arnRegexMatch "arn:aws:rds:many:colons:here:12:snapshot:name:extra" = true := by decide

example : arnRegexMatch "arn:aws-cn:rds:r:1:subgrp:s" = true := by decide

example : arnRegexMatch "arn:aws:rds:r:1:proxy-target:s" = false := by decide

example : arnRegexMatch "foo" = false := by decide

example :
    pyReplace "arn:aws:rds:us-east-1:123456789012:global-cluster:gc1" "us-east-1" ""
      = "arn:aws:rds::123456789012:global-cluster:gc1" := by decide

/-- C1, amended: for every RDS resource other than `GlobalCluster` (DB
instance, cluster, snapshot, cluster snapshot, subnet group, option group, DB
parameter group, cluster parameter group, security group, event subscription,
DB proxy), the `arn` property equals
`"arn:" + partition + ":rds:" + region + ":" + account + ":" + resource_type + ":" + name`;
`GlobalCluster.arn` instead removes the region from that string. -/
theorem c1_arn_formula :
    (∀ (ctx : BackendCtx) (r : DBInstance),
      DBInstance.arn ctx r = "arn:" ++ ctx.partition ++ ":rds:" ++ ctx.region_name
        ++ ":" ++ ctx.account_id ++ ":" ++ DBInstance.resource_type ++ ":" ++ r.name) ∧
    (∀ (ctx : BackendCtx) (r : DBCluster),
      DBCluster.arn ctx r = "arn:" ++ ctx.partition ++ ":rds:" ++ ctx.region_name
        ++ ":" ++ ctx.account_id ++ ":" ++ DBCluster.resource_type ++ ":" ++ r.name) ∧
    (∀ (ctx : BackendCtx) (r : DBSnapshot),
      DBSnapshot.arn ctx r = "arn:" ++ ctx.partition ++ ":rds:" ++ ctx.region_name
        ++ ":" ++ ctx.account_id ++ ":" ++ DBSnapshot.resource_type ++ ":" ++ r.name) ∧
    (∀ (ctx : BackendCtx) (r : DBClusterSnapshot),
      DBClusterSnapshot.arn ctx r = "arn:" ++ ctx.partition ++ ":rds:" ++ ctx.region_name
        ++ ":" ++ ctx.account_id ++ ":" ++ DBClusterSnapshot.resource_type ++ ":" ++ r.name) ∧
    (∀ (ctx : BackendCtx) (r : DBSubnetGroup),
      DBSubnetGroup.arn ctx r = "arn:" ++ ctx.partition ++ ":rds:" ++ ctx.region_name
        ++ ":" ++ ctx.account_id ++ ":" ++ DBSubnetGroup.resource_type ++ ":" ++ r.name) ∧
    (∀ (ctx : BackendCtx) (r : OptionGroup),
      OptionGroup.arn ctx r = "arn:" ++ ctx.partition ++ ":rds:" ++ ctx.region_name
        ++ ":" ++ ctx.account_id ++ ":" ++ OptionGroup.resource_type ++ ":" ++ r.name) ∧
    (∀ (ctx : BackendCtx) (r : DBParameterGroup),
      DBParameterGroup.arn ctx r = "arn:" ++ ctx.partition ++ ":rds:" ++ ctx.region_name
        ++ ":" ++ ctx.account_id ++ ":" ++ DBParameterGroup.resource_type ++ ":" ++ r.name) ∧
    (∀ (ctx : BackendCtx) (r : DBClusterParameterGroup),
      DBClusterParameterGroup.arn ctx r = "arn:" ++ ctx.partition ++ ":rds:"
        ++ ctx.region_name ++ ":" ++ ctx.account_id ++ ":"
        ++ DBClusterParameterGroup.resource_type ++ ":" ++ r.name) ∧
    (∀ (ctx : BackendCtx) (r : DBSecurityGroup),
      DBSecurityGroup.arn ctx r = "arn:" ++ ctx.partition ++ ":rds:" ++ ctx.region_name
        ++ ":" ++ ctx.account_id ++ ":" ++ DBSecurityGroup.resource_type ++ ":" ++ r.name) ∧
    (∀ (ctx : BackendCtx) (r : EventSubscription),
      EventSubscription.arn ctx r = "arn:" ++ ctx.partition ++ ":rds:" ++ ctx.region_name
        ++ ":" ++ ctx.account_id ++ ":" ++ EventSubscription.resource_type ++ ":" ++ r.name) ∧
    (∀ (ctx : BackendCtx) (r : DBProxy),
      DBProxy.arn ctx r = "arn:" ++ ctx.partition ++ ":rds:" ++ ctx.region_name
        ++ ":" ++ ctx.account_id ++ ":" ++ DBProxy.resource_type ++ ":" ++ r.name) := by
  exact ⟨fun _ _ => rfl, fun _ _ => rfl, fun _ _ => rfl, fun _ _ => rfl,
         fun _ _ => rfl, fun _ _ => rfl, fun _ _ => rfl, fun _ _ => rfl,
         fun _ _ => rfl, fun _ _ => rfl, fun _ _ => rfl⟩

/-- C1, counterexample: a `GlobalCluster` is an RDS resource whose `arn`
property is not the claimed string — its overriding property removes the
region. -/
theorem c1_global_cluster_arn_counterexample :
    GlobalCluster.arn ctx0 gcFixture ≠
      "arn:" ++ ctx0.partition ++ ":rds:" ++ ctx0.region_name ++ ":"
        ++ ctx0.account_id ++ ":" ++ GlobalCluster.resource_type ++ ":"
        ++ gcFixture.name ∧
    GlobalCluster.arn ctx0 gcFixture =
      "arn:aws:rds::123456789012:global-cluster:gc1" := by decide

/-- C4: the identifier `"ab\n"` does not consist of letters, digits and
hyphens only, yet `_validate_db_identifier` accepts it (the Python `$` anchor
also matches just before a single trailing newline), so `create_db_instance`
creates an instance under it instead of raising
`InvalidDBInstanceIdentifier`. -/
theorem c4_validator_trailing_newline_bug :
    validateDbIdentifier "ab\n" = true ∧
    specValidDbIdentifier "ab\n" = false ∧
    ∃ db s2, create_db_instance emptyRds kwC4 = (Except.ok db, s2) ∧
      db.db_instance_identifier = "ab\n" := by
  exact ⟨by decide, by decide, _, _, rfl, rfl⟩

/-- C5: with a fresh snapshot identifier, once the number of stored snapshots
of the respective kind has reached the limit, `create_db_snapshot` (for a
resolvable instance reference) and `_create_db_cluster_snapshot` raise
`SnapshotQuotaExceededError` and leave the backend unchanged. -/
theorem c5_snapshot_quota :
    ∀ (s : RDSState),
      (∀ (ref : String ⊕ DBInstance) (snapId stype : String)
          (tags : Option (List Tag)),
        dcontains s.database_snapshots snapId = false →
        s.snapshot_limit ≤ s.database_snapshots.length →
        (∀ n, ref = Sum.inl n → dcontains s.databases n = true) →
        create_db_snapshot s ref snapId stype tags =
          (Except.error RdsErr.snapshotQuotaExceededError, s)) ∧
      (∀ (cluster : DBCluster) (snapId stype : String) (tags : List Tag),
        dcontains s.cluster_snapshots snapId = false →
        s.snapshot_limit ≤ s.cluster_snapshots.length →
        _create_db_cluster_snapshot s cluster snapId stype tags =
          (Except.error RdsErr.snapshotQuotaExceededError, s)) := by
  intro s
  constructor
  · intro ref snapId stype tags hfresh hquota hres
    unfold create_db_snapshot
    rcases ref with name | database
    · have hc := hres name rfl
      unfold dcontains at hc
      cases hdl : dlookup s.databases name with
      | none => rw [hdl] at hc; simp at hc
      | some database =>
        simp only [hdl, hfresh, Bool.false_eq_true, if_neg, if_pos hquota]
        simp [hfresh]
    · simp [hfresh, hquota]
  · intro cluster snapId stype tags hfresh hquota
    unfold _create_db_cluster_snapshot
    simp [hfresh, hquota]

/-- Witness for C5 at a concrete backend with an exhausted snapshot quota. -/
theorem c5_snapshot_quota_witness :
    create_db_snapshot rdsQuotaFull (Sum.inl "db1") "snap1" "manual" none =
      (Except.error RdsErr.snapshotQuotaExceededError, rdsQuotaFull) ∧
    _create_db_cluster_snapshot rdsQuotaFull
        { db_cluster_identifier := "c1", engine := "aurora-mysql"
          engine_version := "5.7.mysql_aurora.2.07.2", engine_mode := "provisioned"
          port := 3306, _status := "available", deletion_protection := false
          cluster_members := [], global_cluster_identifier := none
          replication_source_identifier := none, read_replica_identifiers := []
          is_writer := false, copy_tags_to_snapshot := false
          master_username := some "admin", _master_user_password := some "password1"
          backtrack_window := 0, iam_auth := false, tags := [] }
        "csnap1" "manual" [] =
      (Except.error RdsErr.snapshotQuotaExceededError, rdsQuotaFull) := by
  refine ⟨(c5_snapshot_quota rdsQuotaFull).1 (Sum.inl "db1") "snap1" "manual" none
      (by decide) (by decide) ?_, (c5_snapshot_quota rdsQuotaFull).2 _ "csnap1" "manual" []
      (by decide) (by decide)⟩
  intro n hn
  cases hn
  decide

theorem snapshot_ops_leave_clusters (s : RDSState) (cid n : String) :
    (create_auto_cluster_snapshot s cid n).2.clusters = s.clusters := by
  unfold create_auto_cluster_snapshot create_db_cluster_snapshot
  cases dlookup s.clusters cid with
  | none => rfl
  | some cl =>
    unfold _create_db_cluster_snapshot
    by_cases h1 : dcontains s.cluster_snapshots n = true
    · simp [h1]
    · by_cases h2 : s.snapshot_limit ≤ s.cluster_snapshots.length
      · simp [h1, h2]
      · simp [h1, h2]

theorem remove_from_global_cluster_leaves_clusters (s : RDSState) (gid cid : String) :
    (remove_from_global_cluster s gid cid).clusters = s.clusters := by
  unfold remove_from_global_cluster
  cases dlookup s.global_clusters gid with
  | none => rfl
  | some gc =>
    cases describeFirstCluster s cid with
    | none => rfl
    | some kc =>
      by_cases hm : cid ∈ gc.members <;> simp [hm]

/-- C6: for an existing cluster, `delete_db_cluster` raises
`InvalidParameterValue` when deletion protection is on; raises
`DBClusterToBeDeletedHasActiveMembers` when (protection is off and) the member
list is non-empty — in both cases the whole backend is unchanged; any error
leaves the cluster stored unchanged; and only on success is the cluster
removed from the `clusters` dictionary and returned. -/
theorem c6_delete_db_cluster :
    ∀ (s : RDSState) (cid : String) (snapName : Option String) (c : DBCluster),
      dlookup s.clusters cid = some c →
      (c.deletion_protection = true →
        delete_db_cluster s cid snapName = (Except.error RdsErr.invalidParameterValue, s)) ∧
      (c.deletion_protection = false → c.cluster_members ≠ [] →
        delete_db_cluster s cid snapName =
          (Except.error RdsErr.dbClusterToBeDeletedHasActiveMembers, s)) ∧
      (∀ ret s2, delete_db_cluster s cid snapName = (Except.ok ret, s2) →
        ret = c ∧ s2.clusters = derase s.clusters cid) ∧
      (∀ e s2, delete_db_cluster s cid snapName = (Except.error e, s2) →
        dlookup s2.clusters cid = some c) := by
  intro s cid snapName c hc
  have master :
      (c.deletion_protection = true ∧
        delete_db_cluster s cid snapName = (Except.error RdsErr.invalidParameterValue, s)) ∨
      (c.deletion_protection = false ∧ c.cluster_members ≠ [] ∧
        delete_db_cluster s cid snapName =
          (Except.error RdsErr.dbClusterToBeDeletedHasActiveMembers, s)) ∨
      (c.deletion_protection = false ∧ c.cluster_members = [] ∧
        ∃ (s3 : RDSState), s3.clusters = s.clusters ∧
        delete_db_cluster s cid snapName =
          (Except.ok c, { s3 with clusters := derase s3.clusters cid })) ∨
      (c.deletion_protection = false ∧ c.cluster_members = [] ∧
        ∃ (e : RdsErr) (s3 : RDSState), s3.clusters = s.clusters ∧
        delete_db_cluster s cid snapName = (Except.error e, s3)) := by
    by_cases hprot : c.deletion_protection = true
    · exact Or.inl ⟨hprot, by unfold delete_db_cluster; simp [hc, hprot]⟩
    · have hprotF : c.deletion_protection = false := by
        simpa using hprot
      by_cases hmem : c.cluster_members = []
      · by_cases hg : dcontains s.global_clusters ((c.global_cluster_identifier).getD "") = true
        · have hremc : (remove_from_global_cluster s
              ((c.global_cluster_identifier).getD "") cid).clusters = s.clusters :=
            remove_from_global_cluster_leaves_clusters s _ cid
          cases snapName with
          | none =>
            refine Or.inr (Or.inr (Or.inl ⟨hprotF, hmem,
              ⟨remove_from_global_cluster s ((c.global_cluster_identifier).getD "") cid,
               hremc, ?_⟩⟩))
            unfold delete_db_cluster
            simp [hc, hprotF, hmem, hg]
          | some snapId =>
            rcases h3 : create_auto_cluster_snapshot
                (remove_from_global_cluster s ((c.global_cluster_identifier).getD "") cid)
                cid snapId with ⟨res, s3⟩
            have hs3c : s3.clusters = s.clusters := by
              have h4 := snapshot_ops_leave_clusters
                (remove_from_global_cluster s ((c.global_cluster_identifier).getD "") cid)
                cid snapId
              rw [h3] at h4
              exact h4.trans hremc
            cases res with
            | error e =>
              refine Or.inr (Or.inr (Or.inr ⟨hprotF, hmem, e, s3, hs3c, ?_⟩))
              unfold delete_db_cluster
              simp [hc, hprotF, hmem, hg, h3]
            | ok snap =>
              refine Or.inr (Or.inr (Or.inl ⟨hprotF, hmem, s3, hs3c, ?_⟩))
              unfold delete_db_cluster
              simp [hc, hprotF, hmem, hg, h3]
        · cases snapName with
          | none =>
            refine Or.inr (Or.inr (Or.inl ⟨hprotF, hmem, s, rfl, ?_⟩))
            unfold delete_db_cluster
            simp [hc, hprotF, hmem, hg]
          | some snapId =>
            rcases h3 : create_auto_cluster_snapshot s cid snapId with ⟨res, s3⟩
            have hs3c : s3.clusters = s.clusters := by
              have h4 := snapshot_ops_leave_clusters s cid snapId
              rw [h3] at h4
              exact h4
            cases res with
            | error e =>
              refine Or.inr (Or.inr (Or.inr ⟨hprotF, hmem, e, s3, hs3c, ?_⟩))
              unfold delete_db_cluster
              simp [hc, hprotF, hmem, hg, h3]
            | ok snap =>
              refine Or.inr (Or.inr (Or.inl ⟨hprotF, hmem, s3, hs3c, ?_⟩))
              unfold delete_db_cluster
              simp [hc, hprotF, hmem, hg, h3]
      · refine Or.inr (Or.inl ⟨hprotF, hmem, ?_⟩)
        unfold delete_db_cluster
        simp [hc, hprotF, hmem]
  refine ⟨?_, ?_, ?_, ?_⟩
  · intro hprot
    rcases master with ⟨_, heq⟩ | ⟨hpf, _, _⟩ | ⟨hpf, _, _⟩ | ⟨hpf, _, _⟩
    · exact heq
    all_goals rw [hprot] at hpf; cases hpf
  · intro hprotF hmem
    rcases master with ⟨hp, _⟩ | ⟨_, _, heq⟩ | ⟨_, hm, _⟩ | ⟨_, hm, _⟩
    · rw [hprotF] at hp; cases hp
    · exact heq
    all_goals exact absurd hm hmem
  · intro ret s2 h
    rcases master with ⟨_, heq⟩ | ⟨_, _, heq⟩ | ⟨_, _, s3, hs3c, heq⟩ | ⟨_, _, e, s3, hs3c, heq⟩
    · rw [heq] at h
      injection h with h1 _
      exact Except.noConfusion h1
    · rw [heq] at h
      injection h with h1 _
      exact Except.noConfusion h1
    · rw [heq] at h
      injection h with h1 h2
      injection h1 with h1
      subst h2
      refine ⟨h1.symm, ?_⟩
      show derase s3.clusters cid = derase s.clusters cid
      rw [hs3c]
    · rw [heq] at h
      injection h with h1 _
      exact Except.noConfusion h1
  · intro e s2 h
    rcases master with ⟨_, heq⟩ | ⟨_, _, heq⟩ | ⟨_, _, s3, hs3c, heq⟩ | ⟨_, _, e2, s3, hs3c, heq⟩
    · rw [heq] at h
      injection h with _ h2
      rw [← h2]
      exact hc
    · rw [heq] at h
      injection h with _ h2
      rw [← h2]
      exact hc
    · rw [heq] at h
      injection h with h1 _
      exact Except.noConfusion h1
    · rw [heq] at h
      injection h with _ h2
      rw [← h2, hs3c]
      exact hc

/-- Witness for C6: deleting the unprotected, member-free cluster `c1`
succeeds, returns it, and erases it. -/
theorem c6_delete_db_cluster_witness :
    ∃ ret s2, delete_db_cluster rdsWithCluster "c1" none = (Except.ok ret, s2) ∧
      ret = clusterFixture ∧ s2.clusters = derase rdsWithCluster.clusters "c1" := by
  obtain ⟨ret, s2, h⟩ :
      ∃ ret s2, delete_db_cluster rdsWithCluster "c1" none = (Except.ok ret, s2) :=
    ⟨_, _, rfl⟩
  have h2 := (c6_delete_db_cluster rdsWithCluster "c1" none clusterFixture
    (by decide)).2.2.1 ret s2 h
  exact ⟨ret, s2, h, h2⟩

theorem create_db_snapshot_leaves_databases (s : RDSState)
    (ref : String ⊕ DBInstance) (n stype : String) (tags : Option (List Tag)) :
    (create_db_snapshot s ref n stype tags).2.databases = s.databases := by
  unfold create_db_snapshot
  rcases ref with name | database
  · cases hdl : dlookup s.databases name with
    | none => simp [hdl]
    | some database =>
      by_cases h1 : dcontains s.database_snapshots n = true
      · simp [hdl, h1]
      · by_cases h2 : s.snapshot_limit ≤ s.database_snapshots.length
        · simp [hdl, h1, h2]
        · simp [hdl, h1, h2]
  · by_cases h1 : dcontains s.database_snapshots n = true
    · simp [h1]
    · by_cases h2 : s.snapshot_limit ≤ s.database_snapshots.length
      · simp [h1, h2]
      · simp [h1, h2]

theorem create_db_snapshot_error_shape (s : RDSState)
    (ref : String ⊕ DBInstance) (n stype : String) (tags : Option (List Tag))
    (e : RdsErr) (he : (create_db_snapshot s ref n stype tags).1 = Except.error e) :
    ∀ a b, e ≠ RdsErr.invalidDBInstanceStateError a b := by
  intro a b
  unfold create_db_snapshot at he
  rcases ref with name | database
  · cases hdl : dlookup s.databases name with
    | none =>
      simp [hdl] at he
      simp [← he]
    | some database =>
      by_cases h1 : dcontains s.database_snapshots n = true
      · simp [hdl, h1] at he
        simp [← he]
      · by_cases h2 : s.snapshot_limit ≤ s.database_snapshots.length
        · simp [hdl, h1, h2] at he
          simp [← he]
        · simp [hdl, h1, h2] at he
  · by_cases h1 : dcontains s.database_snapshots n = true
    · simp [h1] at he
      simp [← he]
    · by_cases h2 : s.snapshot_limit ≤ s.database_snapshots.length
      · simp [h1, h2] at he
        simp [← he]
      · simp [h1, h2] at he

/-- C3: for an existing DB instance that is neither a read replica nor a
multi-AZ SQL Server instance (with an identifier passing validation, as every
identifier accepted by `create_db_instance` does): `stop_db_instance` raises
`InvalidDBInstanceStateError` exactly when the status is not `"available"`,
and on success returns and stores the instance with status `"stopped"`;
`start_db_instance` raises `InvalidDBInstanceStateError` exactly when the
status is not `"stopped"`, and on success returns and stores the instance with
status `"available"`. -/
theorem c3_stop_start_db_instance :
    ∀ (s : RDSState) (id : String) (snap : Option String) (key : String)
      (db : DBInstance),
      validateDbIdentifier id = true →
      describeFirstInstance s id = some (key, db) →
      db.is_replica = false →
      (db.multi_az && db.engine.toLower.startsWith "sqlserver") = false →
      (((stop_db_instance s id snap).1 =
          Except.error (RdsErr.invalidDBInstanceStateError id "stop")) ↔
        db.status ≠ "available") ∧
      (∀ db2 s2, stop_db_instance s id snap = (Except.ok db2, s2) →
        db2 = { db with status := "stopped" } ∧
        dlookup s2.databases key = some { db with status := "stopped" }) ∧
      (((start_db_instance s id).1 =
          Except.error (RdsErr.invalidDBInstanceStateError id "start")) ↔
        db.status ≠ "stopped") ∧
      (∀ db2 s2, start_db_instance s id = (Except.ok db2, s2) →
        db2 = { db with status := "available" } ∧
        dlookup s2.databases key = some { db with status := "available" }) := by
  intro s id snap key db hv hfind hrep hmaz
  have hstop :
      (db.status = "available" ∧
        ((∃ s2, stop_db_instance s id snap =
            (Except.ok { db with status := "stopped" }, s2) ∧
          dlookup s2.databases key = some { db with status := "stopped" }) ∨
         (∃ e s2, (∀ a b, e ≠ RdsErr.invalidDBInstanceStateError a b) ∧
           stop_db_instance s id snap = (Except.error e, s2)))) ∨
      (db.status ≠ "available" ∧
        stop_db_instance s id snap =
          (Except.error (RdsErr.invalidDBInstanceStateError id "stop"), s)) := by
    by_cases hst : db.status = "available"
    · refine Or.inl ⟨hst, ?_⟩
      cases snap with
      | none =>
        refine Or.inl ⟨{ s with databases := dinsert s.databases key { db with status := "stopped" } }, ?_, ?_⟩
        · unfold stop_db_instance
          simp [hv, hfind, hrep, hmaz, hst]
        · rw [dlookup_dinsert]
          simp
      | some snapId =>
        rcases h3 : create_auto_snapshot s id snapId with ⟨res, sx⟩
        cases res with
        | error e =>
          refine Or.inr ⟨e, sx, ?_, ?_⟩
          · intro a b
            have := create_db_snapshot_error_shape s (Sum.inl id) snapId "automated"
              none e (by unfold create_auto_snapshot at h3; rw [h3])
            exact this a b
          · unfold stop_db_instance
            simp [hv, hfind, hrep, hmaz, hst, h3]
        | ok snapshot =>
          refine Or.inl ⟨{ sx with databases := dinsert sx.databases key { db with status := "stopped" } }, ?_, ?_⟩
          · unfold stop_db_instance
            simp [hv, hfind, hrep, hmaz, hst, h3]
          · rw [dlookup_dinsert]
            simp
    · refine Or.inr ⟨hst, ?_⟩
      unfold stop_db_instance
      simp [hv, hfind, hrep, hmaz, hst]
  have hstart :
      (db.status = "stopped" ∧
        start_db_instance s id =
          (Except.ok { db with status := "available" },
           { s with databases :=
               dinsert s.databases key { db with status := "available" } })) ∨
      (db.status ≠ "stopped" ∧
        start_db_instance s id =
          (Except.error (RdsErr.invalidDBInstanceStateError id "start"), s)) := by
    by_cases hst : db.status = "stopped"
    · refine Or.inl ⟨hst, ?_⟩
      unfold start_db_instance
      simp [hv, hfind, hst]
    · refine Or.inr ⟨hst, ?_⟩
      unfold start_db_instance
      simp [hv, hfind, hst]
  refine ⟨?_, ?_, ?_, ?_⟩
  · constructor
    · intro h
      rcases hstop with ⟨hst, hrest⟩ | ⟨hst, _⟩
      · exfalso
        rcases hrest with ⟨s2, heq, _⟩ | ⟨e, s2, hne, heq⟩
        · rw [heq] at h
          exact Except.noConfusion h
        · rw [heq] at h
          injection h with h1
          exact hne id "stop" h1
      · exact hst
    · intro hst
      rcases hstop with ⟨hst2, _⟩ | ⟨_, heq⟩
      · exact absurd hst2 hst
      · rw [heq]
  · intro db2 s2 h
    rcases hstop with ⟨hst, hrest⟩ | ⟨_, heq⟩
    · rcases hrest with ⟨s2x, heq, hdl⟩ | ⟨e, s2x, _, heq⟩
      · rw [heq] at h
        injection h with h1 h2
        injection h1 with h1
        subst h2
        exact ⟨h1.symm, hdl⟩
      · rw [heq] at h
        injection h with h1 _
        exact Except.noConfusion h1
    · rw [heq] at h
      injection h with h1 _
      exact Except.noConfusion h1
  · constructor
    · intro h
      rcases hstart with ⟨hst, heq⟩ | ⟨hst, _⟩
      · exfalso
        rw [heq] at h
        exact Except.noConfusion h
      · exact hst
    · intro hst
      rcases hstart with ⟨hst2, _⟩ | ⟨_, heq⟩
      · exact absurd hst2 hst
      · rw [heq]
  · intro db2 s2 h
    rcases hstart with ⟨_, heq⟩ | ⟨_, heq⟩
    · rw [heq] at h
      injection h with h1 h2
      injection h1 with h1
      subst h2
      refine ⟨h1.symm, ?_⟩
      rw [dlookup_dinsert]
      simp
    · rw [heq] at h
      injection h with h1 _
      exact Except.noConfusion h1

/-- Witness for C3: stopping the available instance `db1` succeeds and stores
status `"stopped"`. -/
theorem c3_stop_start_db_instance_witness :
    ∃ db2 s2, stop_db_instance rdsWithDb "db1" none = (Except.ok db2, s2) ∧
      db2 = { dbFixture with status := "stopped" } ∧
      dlookup s2.databases "db1" = some { dbFixture with status := "stopped" } := by
  obtain ⟨db2, s2, h⟩ :
      ∃ db2 s2, stop_db_instance rdsWithDb "db1" none = (Except.ok db2, s2) :=
    ⟨_, _, rfl⟩
  have h2 := (c3_stop_start_db_instance rdsWithDb "db1" none "db1" dbFixture
    (by decide) (by decide) (by decide) (by decide)).2.1 db2 s2 h
  exact ⟨db2, s2, h, h2.1, h2.2⟩

theorem mem_dlookup_of_nodup {α : Type} {d : Dict α} (h : (dkeys d).Nodup)
    {k : String} {v : α} (hm : (k, v) ∈ d) : dlookup d k = some v := by
  induction d with
  | nil => cases hm
  | cons hd tl ih =>
    obtain ⟨dk, dv⟩ := hd
    simp only [dkeys, List.map_cons, List.nodup_cons] at h
    rcases List.mem_cons.mp hm with h1 | h1
    · rw [← h1]
      simp [dlookup]
    · have hne : dk ≠ k := by
        intro he
        subst he
        exact h.1 (by simpa [dkeys] using List.mem_map_of_mem Prod.fst h1)
      simp only [dlookup, if_neg hne]
      exact ih h.2 h1

theorem DBCluster.make_fields (kw : DBClusterKwargs) (c0 : DBCluster)
    (h : DBCluster.make kw = Except.ok c0) :
    c0._status = "creating" ∧
    ∀ e, kw.engine = some e →
      c0.engine = e ∧ (kw.port = none → c0.port = defaultClusterPort e) := by
  unfold DBCluster.make at h
  cases he : kw.engine with
  | none => rw [he] at h; exact Except.noConfusion h
  | some e =>
    rw [he] at h
    by_cases hc : listClusterEngines.contains e = true
    · simp only [hc, Bool.not_true, Bool.false_eq_true, if_false] at h
      repeat
        first
        | (exact Except.noConfusion h)
        | (split at h)
      all_goals
        injection h with h
        subst h
        refine ⟨rfl, ?_⟩
        intro e2 he2
        injection he2 with he3
        subst he3
        refine ⟨rfl, ?_⟩
        intro hport
        simp_all
    · simp only [Bool.not_eq_true] at hc
      simp only [hc, Bool.not_false, if_true] at h
      exact Except.noConfusion h

theorem createClusterGlobalStep_spec (s1 : RDSState) (cid : String)
    (c0 : DBCluster) (hdl : dlookup s1.clusters cid = some c0) :
    dlookup (createClusterGlobalStep s1 cid c0).2.clusters cid =
      some (createClusterGlobalStep s1 cid c0).1 ∧
    (createClusterGlobalStep s1 cid c0).1.port = c0.port ∧
    (createClusterGlobalStep s1 cid c0).1._status = c0._status ∧
    ((dkeys s1.clusters).Nodup →
      (dkeys (createClusterGlobalStep s1 cid c0).2.clusters).Nodup) := by
  unfold createClusterGlobalStep
  rcases hg : c0.global_cluster_identifier with _ | g
  · exact ⟨hdl, rfl, rfl, id⟩
  · simp only []
    rcases hgc : dlookup s1.global_clusters g with _ | gc
    · exact ⟨hdl, rfl, rfl, id⟩
    · refine ⟨?_, rfl, rfl, ?_⟩
      · show dlookup (dinsert s1.clusters cid _) cid = _
        rw [dlookup_dinsert]
        simp
      · intro h
        exact dkeys_dinsert_nodup _ _ _ h

theorem createClusterReplicationStep_ok_spec (s2 : RDSState) (c1 : DBCluster)
    (cid : String) (hnd : (dkeys s2.clusters).Nodup)
    (hdl : dlookup s2.clusters cid = some c1) :
    ∀ u s3, createClusterReplicationStep s2 c1 = (Except.ok u, s3) →
      ∃ cf, dlookup s3.clusters cid = some cf ∧
        cf.port = c1.port ∧ cf._status = c1._status := by
  intro u s3 h
  unfold createClusterReplicationStep at h
  rcases hrsi : c1.replication_source_identifier with _ | src
  · simp only [hrsi] at h
    injection h with _ h2
    subst h2
    exact ⟨c1, hdl, rfl, rfl⟩
  · simp only [hrsi] at h
    by_cases hlen : (pySplitColon src).length < 5
    · simp only [hlen, if_true] at h
      injection h with h1 _
      exact Except.noConfusion h1
    · simp only [hlen, if_false] at h
      rcases hfind : describeFirstCluster s2 src with _ | ⟨okey, original⟩
      · simp only [hfind] at h
        injection h with h1 _
        exact Except.noConfusion h1
      · simp only [hfind] at h
        injection h with _ h2
        subst h2
        by_cases hok : okey = cid
        · subst hok
          have hmem : (okey, original) ∈ s2.clusters :=
            List.mem_of_find?_eq_some hfind
          have hdl2 : dlookup s2.clusters okey = some original :=
            mem_dlookup_of_nodup hnd hmem
          rw [hdl] at hdl2
          injection hdl2 with hdl2
          subst hdl2
          refine ⟨{ c1 with read_replica_identifiers := c1.read_replica_identifiers ++ [DBCluster.arn s2.ctx c1] }, ?_, rfl, rfl⟩
          show dlookup (dinsert s2.clusters okey _) okey = _
          rw [dlookup_dinsert]
          simp
        · refine ⟨c1, ?_, rfl, rfl⟩
          show dlookup (dinsert s2.clusters okey _) cid = _
          rw [dlookup_dinsert, if_neg hok]
          exact hdl

theorem create_db_cluster_ok_shape (s : RDSState) (kw : DBClusterKwargs)
    (c : DBCluster) (s2 : RDSState) (hnd : (dkeys s.clusters).Nodup)
    (h : create_db_cluster s kw = (Except.ok c, s2)) :
    (∃ c0, DBCluster.make kw = Except.ok c0 ∧
      c.port = c0.port ∧ c._status = c0._status) ∧
    dlookup s2.clusters kw.db_cluster_identifier =
      some { c with _status := "available" } := by
  unfold create_db_cluster at h
  cases hmk : DBCluster.make kw with
  | error e =>
    rw [hmk] at h
    injection h with h1 _
    exact Except.noConfusion h1
  | ok c0 =>
    simp only [hmk] at h
    rcases hgs : createClusterGlobalStep
        { s with clusters := dinsert s.clusters kw.db_cluster_identifier c0 }
        kw.db_cluster_identifier c0 with ⟨c1, sg⟩
    rw [hgs] at h
    have hstep1 := createClusterGlobalStep_spec
      { s with clusters := dinsert s.clusters kw.db_cluster_identifier c0 }
      kw.db_cluster_identifier c0 (by rw [dlookup_dinsert]; simp)
    rw [hgs] at hstep1
    rcases hrs : createClusterReplicationStep sg c1 with ⟨res, s3⟩
    rw [hrs] at h
    cases res with
    | error e =>
      injection h with h1 _
      exact Except.noConfusion h1
    | ok u =>
      have hnd2 : (dkeys sg.clusters).Nodup :=
        hstep1.2.2.2 (dkeys_dinsert_nodup _ _ _ hnd)
      obtain ⟨cf, hcf, hport, hstatus⟩ :=
        createClusterReplicationStep_ok_spec sg c1 kw.db_cluster_identifier
          hnd2 hstep1.1 u s3 hrs
      simp only [hcf, Option.getD_some] at h
      injection h with h1 h2
      injection h1 with h1
      subst h1
      subst h2
      refine ⟨⟨c0, rfl, ?_, ?_⟩, ?_⟩
      · rw [hport, hstep1.2.1]
      · rw [hstatus, hstep1.2.2.1]
      · rw [dlookup_dinsert]
        simp

/-- C7: when `create_db_cluster` succeeds without an explicit port, the
created cluster got the engine-specific default port: 3306 for `aurora`,
`aurora-mysql` and `mysql`; 5432 for `aurora-postgresql` and `postgres`; 8182
for `neptune`. -/
theorem c7_default_cluster_ports :
    ∀ (s : RDSState) (kw : DBClusterKwargs) (c : DBCluster) (s2 : RDSState),
      (dkeys s.clusters).Nodup →
      kw.port = none →
      create_db_cluster s kw = (Except.ok c, s2) →
      (kw.engine = some "aurora" → c.port = 3306) ∧
      (kw.engine = some "aurora-mysql" → c.port = 3306) ∧
      (kw.engine = some "mysql" → c.port = 3306) ∧
      (kw.engine = some "aurora-postgresql" → c.port = 5432) ∧
      (kw.engine = some "postgres" → c.port = 5432) ∧
      (kw.engine = some "neptune" → c.port = 8182) := by
  intro s kw c s2 hnd hport h
  obtain ⟨⟨c0, hmk, hp, _⟩, _⟩ := create_db_cluster_ok_shape s kw c s2 hnd h
  have hf := (DBCluster.make_fields kw c0 hmk).2
  refine ⟨?_, ?_, ?_, ?_, ?_, ?_⟩ <;> intro he <;>
    rw [hp, (hf _ he).2 hport] <;> rfl

/-- Witness for C7: creating a Neptune cluster without a port yields 8182. -/
theorem c7_default_cluster_ports_witness :
    ∃ c s2, create_db_cluster emptyRds kwNeptune = (Except.ok c, s2) ∧
      c.port = 8182 := by
  obtain ⟨c, s2, h⟩ :
      ∃ c s2, create_db_cluster emptyRds kwNeptune = (Except.ok c, s2) :=
    ⟨_, _, rfl⟩
  exact ⟨c, s2, h, (c7_default_cluster_ports emptyRds kwNeptune c s2
    (by decide) rfl h).2.2.2.2.2 rfl⟩

/-- C9: a successful `create_db_cluster` returns a copy of the cluster whose
(backing) status still reads `"creating"` while the cluster stored in the
backend is identical except that its status is already `"available"`;
similarly `start_db_cluster` returns a copy with status `"started"` while
storing the cluster with status `"available"`. -/
theorem c9_cluster_status_copies :
    (∀ (s : RDSState) (kw : DBClusterKwargs) (c : DBCluster) (s2 : RDSState),
      (dkeys s.clusters).Nodup →
      create_db_cluster s kw = (Except.ok c, s2) →
      c._status = "creating" ∧ (c.statusRead).1 = "creating" ∧
      dlookup s2.clusters kw.db_cluster_identifier =
        some { c with _status := "available" }) ∧
    (∀ (s : RDSState) (cid : String) (c2 : DBCluster) (s3 : RDSState),
      start_db_cluster s cid = (Except.ok c2, s3) →
      c2._status = "started" ∧ (c2.statusRead).1 = "started" ∧
      dlookup s3.clusters cid = some { c2 with _status := "available" }) := by
  constructor
  · intro s kw c s2 hnd h
    obtain ⟨⟨c0, hmk, _, hst⟩, hdl⟩ := create_db_cluster_ok_shape s kw c s2 hnd h
    have hcr : c._status = "creating" := by
      rw [hst, (DBCluster.make_fields kw c0 hmk).1]
    refine ⟨hcr, ?_, hdl⟩
    unfold DBCluster.statusRead
    rw [hcr]
    simp
  · intro s cid c2 s3 h
    unfold start_db_cluster at h
    cases hdl : dlookup s.clusters cid with
    | none =>
      rw [hdl] at h
      injection h with h1 _
      exact Except.noConfusion h1
    | some cluster =>
      rw [hdl] at h
      by_cases hcst : cluster._status = "creating"
      · simp only [DBCluster.statusRead, hcst, if_pos, if_true] at h
        simp at h
      · simp only [DBCluster.statusRead, hcst, if_false, if_neg,
          not_false_eq_true] at h
        by_cases hstp : cluster._status = "stopped"
        · rw [hstp] at h
          simp at h
          obtain ⟨h1, h2⟩ := h
          subst h1
          subst h2
          refine ⟨rfl, ?_, ?_⟩
          · unfold DBCluster.statusRead
            simp
          · rw [dlookup_dinsert]
            simp
        · have hd : (if cluster._status ≠ "stopped" then True else False) := by
            simp [hstp]
          rw [if_pos (by simpa using hd : cluster._status ≠ "stopped")] at h
          simp at h

/-- Witness for C9 on concrete create and start calls. -/
theorem c9_cluster_status_copies_witness :
    (∃ c s2, create_db_cluster emptyRds kwNeptune = (Except.ok c, s2) ∧
      c._status = "creating" ∧
      dlookup s2.clusters "nep1" = some { c with _status := "available" }) ∧
    (∃ c2 s3, start_db_cluster rdsWithStoppedCluster "c1" = (Except.ok c2, s3) ∧
      c2._status = "started" ∧
      dlookup s3.clusters "c1" = some { c2 with _status := "available" }) := by
  constructor
  · obtain ⟨c, s2, h⟩ :
        ∃ c s2, create_db_cluster emptyRds kwNeptune = (Except.ok c, s2) :=
      ⟨_, _, rfl⟩
    have hh := c9_cluster_status_copies.1 emptyRds kwNeptune c s2 (by decide) h
    exact ⟨c, s2, h, hh.1, hh.2.2⟩
  · obtain ⟨c2, s3, h⟩ :
        ∃ c2 s3, start_db_cluster rdsWithStoppedCluster "c1" = (Except.ok c2, s3) :=
      ⟨_, _, rfl⟩
    have hh := c9_cluster_status_copies.2 rdsWithStoppedCluster "c1" c2 s3 h
    exact ⟨c2, s3, h, hh.1, hh.2.2⟩

theorem contains_key_iff (l : List String) (a : String) :
    l.contains a = true ↔ a ∈ l := by
  unfold List.contains
  exact List.elem_iff

theorem find_tag_of_mem_nodup {l : List Tag} (h : (l.map Tag.key).Nodup)
    {t : Tag} (ht : t ∈ l) :
    l.find? (fun u => u.key == t.key) = some t := by
  induction l with
  | nil => cases ht
  | cons u rest ih =>
    simp only [List.map_cons, List.nodup_cons] at h
    rcases List.mem_cons.mp ht with h1 | h1
    · subst h1
      simp [List.find?]
    · have hne : (u.key == t.key) = false := by
        rw [beq_eq_false_iff_ne]
        intro he
        exact h.1 (he ▸ List.mem_map_of_mem Tag.key h1)
      simp only [List.find?, hne]
      exact ih h.2 h1

/-- C8: adding a list of fresh tags with pairwise-distinct keys to a tag list
with pairwise-distinct keys makes each new key map to its new value, preserves
every existing tag whose key is not among the new keys, yields a list with
pairwise-distinct keys, and is idempotent. -/
theorem c8_add_tags :
    ∀ (current new : List Tag),
      (new.map Tag.key).Nodup →
      (current.map Tag.key).Nodup →
      (∀ t ∈ new, (addTags current new).find? (fun u => u.key == t.key) = some t) ∧
      (∀ t ∈ current, t.key ∉ new.map Tag.key → t ∈ addTags current new) ∧
      ((addTags current new).map Tag.key).Nodup ∧
      addTags (addTags current new) new = addTags current new := by
  intro current new hnew hcur
  have hfiltmem : ∀ u ∈ current.filter
      (fun tag_set => !((new.map Tag.key).contains tag_set.key)),
      u.key ∉ new.map Tag.key := by
    intro u hu
    have := (List.mem_filter.mp hu).2
    simp only [Bool.not_eq_true'] at this
    intro hmem
    rw [(contains_key_iff _ _).mpr hmem] at this
    cases this
  refine ⟨?_, ?_, ?_, ?_⟩
  · intro t ht
    unfold addTags
    rw [List.find?_append]
    have hnone : (current.filter
        (fun tag_set => !((new.map Tag.key).contains tag_set.key))).find?
        (fun u => u.key == t.key) = none := by
      rw [List.find?_eq_none]
      intro u hu
      simp only [Bool.not_eq_true, beq_eq_false_iff_ne]
      intro he
      exact hfiltmem u hu (he ▸ List.mem_map_of_mem Tag.key ht)
    rw [hnone, Option.none_or]
    exact find_tag_of_mem_nodup hnew ht
  · intro t ht hkey
    unfold addTags
    refine List.mem_append.mpr (Or.inl ?_)
    refine List.mem_filter.mpr ⟨ht, ?_⟩
    simp only [Bool.not_eq_true']
    rw [Bool.eq_false_iff]
    intro hcont
    exact hkey ((contains_key_iff _ _).mp hcont)
  · unfold addTags
    rw [List.map_append]
    rw [List.nodup_append]
    refine ⟨?_, hnew, ?_⟩
    · have hs : (current.filter
          (fun tag_set => !((new.map Tag.key).contains tag_set.key))).Sublist
          current := List.filter_sublist current
      exact (hs.map Tag.key).nodup hcur
    · intro x hx hx2
      rcases List.mem_map.mp hx with ⟨u, hu, hux⟩
      exact hfiltmem u hu (hux ▸ hx2)
  · simp only [addTags]
    rw [List.filter_append]
    have h1 : (current.filter
        (fun tag_set => !((new.map Tag.key).contains tag_set.key))).filter
        (fun tag_set => !((new.map Tag.key).contains tag_set.key)) =
        current.filter (fun tag_set => !((new.map Tag.key).contains tag_set.key)) := by
      rw [List.filter_filter]
      simp
    have h2 : new.filter
        (fun tag_set => !((new.map Tag.key).contains tag_set.key)) = [] := by
      rw [List.filter_eq_nil_iff]
      intro a ha
      have hc := (contains_key_iff (new.map Tag.key) a.key).mpr
        (List.mem_map_of_mem Tag.key ha)
      simp only [hc, Bool.not_true, Bool.false_eq_true, not_false_eq_true]
    rw [h1, h2, List.append_nil]

/-- Witness for C8 on concrete tag lists (`b` is overwritten, `c` added). -/
theorem c8_add_tags_witness :
    ((addTags [⟨"a", "1"⟩, ⟨"b", "2"⟩] [⟨"b", "3"⟩, ⟨"c", "4"⟩]).map Tag.key).Nodup ∧
    addTags (addTags [⟨"a", "1"⟩, ⟨"b", "2"⟩] [⟨"b", "3"⟩, ⟨"c", "4"⟩])
        [⟨"b", "3"⟩, ⟨"c", "4"⟩] =
      addTags [⟨"a", "1"⟩, ⟨"b", "2"⟩] [⟨"b", "3"⟩, ⟨"c", "4"⟩] := by
  have h := c8_add_tags [⟨"a", "1"⟩, ⟨"b", "2"⟩] [⟨"b", "3"⟩, ⟨"c", "4"⟩]
    (by decide) (by decide)
  exact ⟨h.2.2.1, h.2.2.2⟩

theorem updateResourceTags_of_not_found (s : RDSState) (rt name : String)
    (f : List Tag → List Tag) (h : findResourceTags s rt name = none) :
    updateResourceTags s rt name f = s := by
  unfold findResourceTags at h
  unfold updateResourceTags
  rw [Option.map_eq_none'] at h
  rw [h]

/-- C10: for an ARN matching the backend regex whose resource does not exist,
`list_tags_for_resource` and `add_tags_to_resource` return the empty list and
`remove_tags_from_resource` leaves the backend unchanged — none of them
raises; for an ARN failing the regex, each of the three raises
`RDSClientError` with code `InvalidParameterValue`. -/
theorem c10_tags_nonexistent_resource :
    ∀ (s : RDSState) (arn : String) (tags : List Tag) (tag_keys : List String),
      (arnRegexMatch arn = true →
        findResourceTags s (arnResourceType arn) (arnResourceName arn) = none →
        list_tags_for_resource s arn = Except.ok [] ∧
        add_tags_to_resource s arn tags = (Except.ok [], s) ∧
        remove_tags_from_resource s arn tag_keys = (Except.ok (), s)) ∧
      (arnRegexMatch arn = false →
        list_tags_for_resource s arn =
          Except.error (RdsErr.rdsClientError "InvalidParameterValue"
            ("Invalid resource name: " ++ arn)) ∧
        add_tags_to_resource s arn tags =
          (Except.error (RdsErr.rdsClientError "InvalidParameterValue"
            ("Invalid resource name: " ++ arn)), s) ∧
        remove_tags_from_resource s arn tag_keys =
          (Except.error (RdsErr.rdsClientError "InvalidParameterValue"
            ("Invalid resource name: " ++ arn)), s)) := by
  intro s arn tags tag_keys
  constructor
  · intro hm hf
    refine ⟨?_, ?_, ?_⟩
    · unfold list_tags_for_resource
      simp [hm, hf]
    · unfold add_tags_to_resource
      simp [hm, hf]
    · unfold remove_tags_from_resource
      simp [hm, updateResourceTags_of_not_found s _ _ _ hf]
  · intro hm
    refine ⟨?_, ?_, ?_⟩
    · unfold list_tags_for_resource
      simp [hm]
    · unfold add_tags_to_resource
      simp [hm]
    · unfold remove_tags_from_resource
      simp [hm]

/-- Witness for C10 at a matching ARN naming a missing DB instance and at a
non-matching string. -/
theorem c10_tags_nonexistent_resource_witness :
    (list_tags_for_resource emptyRds
        "arn:aws:rds:us-east-1:123456789012:db:nope" = Except.ok [] ∧
      add_tags_to_resource emptyRds
        "arn:aws:rds:us-east-1:123456789012:db:nope" [⟨"k", "v"⟩] =
        (Except.ok [], emptyRds) ∧
      remove_tags_from_resource emptyRds
        "arn:aws:rds:us-east-1:123456789012:db:nope" ["k"] =
        (Except.ok (), emptyRds)) ∧
    list_tags_for_resource emptyRds "not-an-arn" =
      Except.error (RdsErr.rdsClientError "InvalidParameterValue"
        "Invalid resource name: not-an-arn") := by
  constructor
  · exact (c10_tags_nonexistent_resource emptyRds
      "arn:aws:rds:us-east-1:123456789012:db:nope" [⟨"k", "v"⟩] ["k"]).1
      (by decide) (by decide)
  · exact ((c10_tags_nonexistent_resource emptyRds "not-an-arn"
      [⟨"k", "v"⟩] ["k"]).2 (by decide)).1

example : pySplitColon "a:b" = ["a", "b"] := by decide

example : pySplitColon "" = [""] := by decide

example : pySplitColon "a::b:" = ["a", "", "b", ""] := by decide

example : arnResourceType "arn:aws:rds:us-east-1:123456789012:db:nope" = "db" := by decide

example : arnResourceName "arn:aws:rds:us-east-1:123456789012:db:nope" = "nope" := by decide

theorem dlookup_entry_mem {α : Type} {d : Dict α} {k : String} {v : α}
    (h : dlookup d k = some v) : (k, v) ∈ d := by
  induction d with
  | nil => simp [dlookup] at h
  | cons hd tl ih =>
    obtain ⟨dk, dv⟩ := hd
    by_cases h1 : dk = k
    · subst h1
      have h2 : dlookup ((dk, dv) :: tl) dk = some dv := by simp [dlookup]
      rw [h2] at h
      injection h with h
      subst h
      exact List.mem_cons_self _ _
    · simp only [dlookup, if_neg h1] at h
      exact List.mem_cons_of_mem _ (ih h)

theorem rdsInvariant_iff_InvProp (s : RDSState) :
    rdsInvariant s = true ↔ InvProp s := by
  unfold rdsInvariant InvProp
  simp only [Bool.and_eq_true, decide_eq_true_eq, List.all_eq_true]
  constructor
  · rintro ⟨⟨hdb, hcl⟩, hall⟩
    refine ⟨hdb, hcl, ?_⟩
    intro ck c hdlc
    have hmem := dlookup_entry_mem hdlc
    obtain ⟨hnd, hm⟩ := hall (ck, c) hmem
    refine ⟨hnd, ?_⟩
    intro m hmm
    have := hm m hmm
    cases hdl : dlookup s.databases m with
    | none => rw [hdl] at this; cases this
    | some db =>
      rw [hdl] at this
      simp only [Bool.and_eq_true, beq_iff_eq, Bool.not_eq_true'] at this
      exact ⟨db, rfl, this.1, this.2⟩
  · rintro ⟨hdb, hcl, hall⟩
    refine ⟨⟨hdb, hcl⟩, ?_⟩
    intro kc hmem
    obtain ⟨hnd, hm⟩ := hall kc.1 kc.2
      (mem_dlookup_of_nodup hcl (by rwa [Prod.mk.eta]))
    refine ⟨hnd, ?_⟩
    intro m hmm
    obtain ⟨db, hdl, hck, hrep⟩ := hm m hmm
    rw [hdl]
    simp [hck, hrep]

theorem rdsInvariant_membersExist (s : RDSState)
    (h : rdsInvariant s = true) : membersExist s = true := by
  rw [rdsInvariant_iff_InvProp] at h
  obtain ⟨hdb, hcl, hall⟩ := h
  unfold membersExist
  simp only [List.all_eq_true]
  intro kc hmem m hmm
  obtain ⟨db, hdl, _, _⟩ :=
    (hall kc.1 kc.2 (mem_dlookup_of_nodup hcl (by rwa [Prod.mk.eta]))).2 m hmm
  unfold dcontains
  rw [hdl]
  rfl

theorem InvProp_member_unique (s : RDSState) (h : InvProp s) {id : String}
    {db : DBInstance} (hdb : dlookup s.databases id = some db)
    {ck : String} {c : DBCluster} (hc : dlookup s.clusters ck = some c)
    (hm : id ∈ c.cluster_members) :
    db.db_cluster_identifier = some ck ∧ db.is_replica = false := by
  obtain ⟨db2, hdb2, h1, h2⟩ := (h.2.2 ck c hc).2 id hm
  rw [hdb] at hdb2
  injection hdb2 with e
  subst e
  exact ⟨h1, h2⟩

theorem InvProp_databases_change (s s2 : RDSState)
    (hclusters : s2.clusters = s.clusters)
    (hnd : (dkeys s2.databases).Nodup)
    (hpres : ∀ m db0, dlookup s.databases m = some db0 →
      (∃ db1, dlookup s2.databases m = some db1 ∧
        db1.db_cluster_identifier = db0.db_cluster_identifier ∧
        db1.is_replica = db0.is_replica) ∨
      (∀ ck c, dlookup s.clusters ck = some c → m ∉ c.cluster_members))
    (h : InvProp s) : InvProp s2 := by
  obtain ⟨_, hclnd, hall⟩ := h
  refine ⟨hnd, by rwa [hclusters], ?_⟩
  intro ck c hc
  rw [hclusters] at hc
  obtain ⟨hndm, hm⟩ := hall ck c hc
  refine ⟨hndm, ?_⟩
  intro m hmm
  obtain ⟨db0, hdb0, h1, h2⟩ := hm m hmm
  rcases hpres m db0 hdb0 with ⟨db1, hdb1, e1, e2⟩ | hno
  · exact ⟨db1, hdb1, e1.trans h1, e2.trans h2⟩
  · exact absurd hmm (hno ck c hc)

theorem InvProp_insert_fresh_db (s : RDSState) (id : String) (db : DBInstance)
    (h : InvProp s) (hfresh : dlookup s.databases id = none) :
    InvProp { s with databases := dinsert s.databases id db } := by
  refine InvProp_databases_change s _ rfl (dkeys_dinsert_nodup _ _ _ h.1) ?_ h
  intro m db0 hdb0
  left
  refine ⟨db0, ?_, rfl, rfl⟩
  show dlookup (dinsert s.databases id db) m = some db0
  rw [dlookup_dinsert]
  split
  · rename_i he
    rw [← he, hfresh] at hdb0
    cases hdb0
  · exact hdb0

theorem InvProp_append_member (s : RDSState) (id : String) (db : DBInstance)
    (cid : String) (cluster : DBCluster) (h : InvProp s)
    (hfresh : dlookup s.databases id = none)
    (hcl : dlookup s.clusters cid = some cluster)
    (hdbc : db.db_cluster_identifier = some cid)
    (hdbr : db.is_replica = false) :
    InvProp { s with
      clusters := dinsert s.clusters cid
        { cluster with cluster_members := cluster.cluster_members ++ [id] },
      databases := dinsert s.databases id db } := by
  obtain ⟨hdbnd, hclnd, hall⟩ := h
  refine ⟨dkeys_dinsert_nodup _ _ _ hdbnd, dkeys_dinsert_nodup _ _ _ hclnd, ?_⟩
  intro ck c hc
  have hc2 : dlookup (dinsert s.clusters cid
      { cluster with cluster_members := cluster.cluster_members ++ [id] }) ck =
      some c := hc
  rw [dlookup_dinsert] at hc2
  have hmemold : ∀ m ∈ cluster.cluster_members,
      m ≠ id := by
    intro m hm he
    obtain ⟨db0, hdb0, _, _⟩ := (hall cid cluster hcl).2 m hm
    rw [he, hfresh] at hdb0
    cases hdb0
  have hlift : ∀ (ck2 : String) (m : String), m ≠ id →
      (∃ db0, dlookup s.databases m = some db0 ∧
        db0.db_cluster_identifier = some ck2 ∧ db0.is_replica = false) →
      ∃ db1, dlookup (dinsert s.databases id db) m = some db1 ∧
        db1.db_cluster_identifier = some ck2 ∧ db1.is_replica = false := by
    intro ck2 m hne ⟨db0, hdb0, h1, h2⟩
    refine ⟨db0, ?_, h1, h2⟩
    rw [dlookup_dinsert, if_neg (fun he => hne he.symm)]
    exact hdb0
  by_cases hck : cid = ck
  · subst hck
    rw [if_pos rfl] at hc2
    injection hc2 with hc2
    subst hc2
    constructor
    · show (cluster.cluster_members ++ [id]).Nodup
      rw [List.nodup_append]
      exact ⟨(hall cid cluster hcl).1, List.nodup_singleton id,
        fun m hm hm2 => hmemold m hm (List.mem_singleton.mp hm2)⟩
    · intro m hmm
      rcases List.mem_append.mp hmm with h1 | h1
      · exact hlift cid m (hmemold m h1) ((hall cid cluster hcl).2 m h1)
      · rw [List.mem_singleton.mp h1]
        refine ⟨db, ?_, hdbc, hdbr⟩
        show dlookup (dinsert s.databases id db) id = some db
        rw [dlookup_dinsert, if_pos rfl]
  · rw [if_neg hck] at hc2
    obtain ⟨hndm, hm⟩ := hall ck c hc2
    refine ⟨hndm, ?_⟩
    intro m hmm
    have hne : m ≠ id := by
      intro he
      obtain ⟨db0, hdb0, _, _⟩ := hm m hmm
      rw [he, hfresh] at hdb0
      cases hdb0
    exact hlift ck m hne (hm m hmm)

theorem InvProp_remove_member (s : RDSState) (cid : String) (cl : DBCluster)
    (h : InvProp s) (hcl : dlookup s.clusters cid = some cl) (x : String) :
    InvProp { s with clusters := dinsert s.clusters cid { cl with cluster_members := removeFirst cl.cluster_members x } } := by
  obtain ⟨hdbnd, hclnd, hall⟩ := h
  refine ⟨hdbnd, dkeys_dinsert_nodup _ _ _ hclnd, ?_⟩
  intro ck c hc
  have hc2 : dlookup (dinsert s.clusters cid
      { cl with cluster_members := removeFirst cl.cluster_members x }) ck =
      some c := hc
  rw [dlookup_dinsert] at hc2
  by_cases hck : cid = ck
  · subst hck
    rw [if_pos rfl] at hc2
    injection hc2 with hc2
    subst hc2
    constructor
    · exact removeFirst_nodup x (hall cid cl hcl).1
    · intro m hmm
      exact (hall cid cl hcl).2 m (mem_removeFirst hmm)
  · rw [if_neg hck] at hc2
    exact hall ck c hc2

theorem DBInstance.make_ok (kw : DBInstanceKwargs) (db : DBInstance)
    (h : DBInstance.make kw = Except.ok db) :
    db.db_instance_identifier = kw.db_instance_identifier ∧
    db.db_cluster_identifier = kw.db_cluster_identifier ∧
    db.is_replica = false := by
  unfold DBInstance.make at h
  split at h
  · injection h with h
    subst h
    exact ⟨rfl, rfl, rfl⟩
  · exact Except.noConfusion h

theorem InvProp_of_same (s s2 : RDSState) (hdb : s2.databases = s.databases)
    (hcl : s2.clusters = s.clusters) (h : InvProp s) : InvProp s2 := by
  obtain ⟨h1, h2, h3⟩ := h
  refine ⟨by rwa [hdb], by rwa [hcl], ?_⟩
  intro ck c hc
  rw [hcl] at hc
  obtain ⟨hnd, hm⟩ := h3 ck c hc
  refine ⟨hnd, ?_⟩
  intro m hmm
  obtain ⟨db, hdl, e1, e2⟩ := hm m hmm
  exact ⟨db, by rwa [hdb], e1, e2⟩

theorem create_db_snapshot_leaves_clusters (s : RDSState)
    (ref : String ⊕ DBInstance) (n stype : String) (tags : Option (List Tag)) :
    (create_db_snapshot s ref n stype tags).2.clusters = s.clusters := by
  unfold create_db_snapshot
  rcases ref with name | database
  · cases hdl : dlookup s.databases name with
    | none => simp [hdl]
    | some database =>
      by_cases h1 : dcontains s.database_snapshots n = true
      · simp [hdl, h1]
      · by_cases h2 : s.snapshot_limit ≤ s.database_snapshots.length
        · simp [hdl, h1, h2]
        · simp [hdl, h1, h2]
  · by_cases h1 : dcontains s.database_snapshots n = true
    · simp [h1]
    · by_cases h2 : s.snapshot_limit ≤ s.database_snapshots.length
      · simp [h1, h2]
      · simp [h1, h2]

theorem create_db_instance_preserves_InvProp (s : RDSState)
    (kw : DBInstanceKwargs) (h : InvProp s) :
    InvProp (create_db_instance s kw).2 := by
  dsimp only [create_db_instance]
  cases hdc : dcontains s.databases kw.db_instance_identifier with
  | true => exact h
  | false =>
    have hfresh : dlookup s.databases kw.db_instance_identifier = none := by
      unfold dcontains at hdc
      exact Option.not_isSome_iff_eq_none.mp (by simp [hdc])
    cases hv : validateDbIdentifier kw.db_instance_identifier with
    | false => exact h
    | true =>
      cases hmk : DBInstance.make kw with
      | error e => exact h
      | ok db =>
        obtain ⟨hid, hcidkw, hrep⟩ := DBInstance.make_ok kw db hmk
        simp only []
        cases hdbc : db.db_cluster_identifier with
        | none => exact InvProp_insert_fresh_db s _ db h hfresh
        | some cid =>
          simp only []
          cases hcl : dlookup s.clusters cid with
          | none => exact InvProp_insert_fresh_db s _ db h hfresh
          | some cluster =>
            simp only []
            cases hsrv : serverlessEngines.contains cluster.engine &&
                decide (cluster.engine_mode = "serverless") with
            | true => exact h
            | false =>
              by_cases heng : db.engine ≠ cluster.engine
              · rw [if_pos heng]
                exact h
              · rw [if_neg heng]
                exact InvProp_append_member s _ db cid cluster h hfresh hcl
                  hdbc hrep

theorem deleteSnapshotStep_state (s : RDSState) (id : String)
    (snap : Option String) :
    (deleteSnapshotStep s id snap).2.databases = s.databases ∧
    (deleteSnapshotStep s id snap).2.clusters = s.clusters := by
  unfold deleteSnapshotStep
  cases snap with
  | none => exact ⟨rfl, rfl⟩
  | some snapId =>
    simp only []
    have hd2 : (create_auto_snapshot s id snapId).2.databases = s.databases :=
      create_db_snapshot_leaves_databases s (Sum.inl id) snapId "automated" none
    have hc2 : (create_auto_snapshot s id snapId).2.clusters = s.clusters :=
      create_db_snapshot_leaves_clusters s (Sum.inl id) snapId "automated" none
    rcases h3 : create_auto_snapshot s id snapId with ⟨res2, sy⟩
    rw [h3] at hd2 hc2
    cases res2 with
    | error e => exact ⟨hd2, hc2⟩
    | ok a => exact ⟨hd2, hc2⟩

theorem InvProp_derase_unreferenced (sx : RDSState) (id : String)
    (h : InvProp sx)
    (hno : ∀ ck c, dlookup sx.clusters ck = some c → id ∉ c.cluster_members) :
    InvProp { sx with databases := derase sx.databases id } := by
  refine InvProp_databases_change sx _ rfl (dkeys_derase_nodup _ _ h.1) ?_ h
  intro m db0 hdb0
  by_cases hmid : m = id
  · subst hmid
    exact Or.inr hno
  · left
    refine ⟨db0, ?_, rfl, rfl⟩
    show dlookup (derase sx.databases id) m = some db0
    rw [dlookup_derase _ h.1, if_neg (fun he => hmid he.symm)]
    exact hdb0

theorem InvProp_delete_member_and_db (sx : RDSState) (id : String)
    (db : DBInstance) (cid : String) (cluster : DBCluster)
    (h : InvProp sx) (hdb : dlookup sx.databases id = some db)
    (hcid : db.db_cluster_identifier = some cid)
    (hcl : dlookup sx.clusters cid = some cluster) :
    InvProp { sx with
      databases := derase sx.databases id,
      clusters := dinsert sx.clusters cid
        { cluster with cluster_members :=
            removeFirst cluster.cluster_members id } } := by
  obtain ⟨hdnd, hcnd, hall⟩ := h
  refine ⟨dkeys_derase_nodup _ _ hdnd, dkeys_dinsert_nodup _ _ _ hcnd, ?_⟩
  intro ck c hc
  have hc2 : dlookup (dinsert sx.clusters cid
      { cluster with cluster_members :=
          removeFirst cluster.cluster_members id }) ck = some c := hc
  rw [dlookup_dinsert] at hc2
  by_cases hck : cid = ck
  · subst hck
    rw [if_pos rfl] at hc2
    injection hc2 with hc2
    subst hc2
    refine ⟨removeFirst_nodup id (hall cid cluster hcl).1, ?_⟩
    intro m hm
    have hmm : m ∈ cluster.cluster_members := mem_removeFirst hm
    have hmne : m ≠ id := mem_removeFirst_ne (hall cid cluster hcl).1 hm
    obtain ⟨db0, hdb0, e1, e2⟩ := (hall cid cluster hcl).2 m hmm
    refine ⟨db0, ?_, e1, e2⟩
    show dlookup (derase sx.databases id) m = some db0
    rw [dlookup_derase _ hdnd, if_neg (fun he => hmne he.symm)]
    exact hdb0
  · rw [if_neg hck] at hc2
    obtain ⟨hndm, hm⟩ := hall ck c hc2
    refine ⟨hndm, ?_⟩
    intro m hmm
    obtain ⟨db0, hdb0, e1, e2⟩ := hm m hmm
    have hmne : m ≠ id := by
      intro he
      subst he
      rw [hdb] at hdb0
      injection hdb0 with e
      subst e
      rw [hcid] at e1
      injection e1 with e1
      exact hck e1
    refine ⟨db0, ?_, e1, e2⟩
    show dlookup (derase sx.databases id) m = some db0
    rw [dlookup_derase _ hdnd, if_neg (fun he => hmne he.symm)]
    exact hdb0

theorem deleteReplicaStep_preserves (s3 : RDSState) (database : DBInstance)
    (h : InvProp s3) : InvProp (deleteReplicaStep s3 database).2 := by
  unfold deleteReplicaStep
  cases hrep : database.is_replica with
  | false => exact h
  | true =>
    cases hsrc : database.source_db_identifier with
    | none => exact h
    | some src =>
      simp only []
      cases hfind : find_db_from_id s3 src with
      | none => exact h
      | some pr =>
        obtain ⟨pk, primary⟩ := pr
        simp only []
        by_cases hin : database.db_instance_identifier ∈ primary.replicas
        · rw [if_pos hin]
          have hpk : dlookup s3.databases pk = some primary := by
            simp only [find_db_from_id, describeFirstInstance] at hfind
            exact mem_dlookup_of_nodup h.1 (List.mem_of_find?_eq_some hfind)
          show InvProp { s3 with databases := dinsert s3.databases pk { primary with replicas := removeFirst primary.replicas database.db_instance_identifier } }
          refine InvProp_databases_change s3 _ rfl
            (dkeys_dinsert_nodup _ _ _ h.1) ?_ h
          intro m db0 hdb0
          left
          by_cases hmk : pk = m
          · subst hmk
            rw [hpk] at hdb0
            injection hdb0 with e
            subst e
            refine ⟨{ primary with replicas := removeFirst primary.replicas database.db_instance_identifier }, ?_, rfl, rfl⟩
            show dlookup (dinsert s3.databases pk { primary with replicas := removeFirst primary.replicas database.db_instance_identifier }) pk = some { primary with replicas := removeFirst primary.replicas database.db_instance_identifier }
            rw [dlookup_dinsert, if_pos rfl]
          · refine ⟨db0, ?_, rfl, rfl⟩
            show dlookup (dinsert s3.databases pk { primary with replicas := removeFirst primary.replicas database.db_instance_identifier }) m = some db0
            rw [dlookup_dinsert, if_neg hmk]
            exact hdb0
        · rw [if_neg hin]
          exact h

theorem deleteClusterStep_preserves (s4 : RDSState) (database : DBInstance)
    (id : String) (h : InvProp s4) :
    InvProp (deleteClusterStep s4 database id).2 := by
  unfold deleteClusterStep
  cases hc : database.db_cluster_identifier with
  | none => exact h
  | some cluster_id =>
    simp only []
    cases hcl : dlookup s4.clusters cluster_id with
    | none => exact h
    | some cluster =>
      simp only []
      by_cases hin : id ∈ cluster.cluster_members
      · rw [if_pos hin]
        exact InvProp_remove_member s4 cluster_id cluster h hcl id
      · rw [if_neg hin]
        exact h

theorem delete_db_instance_preserves_InvProp (s : RDSState) (id : String)
    (snap : Option String) (h : InvProp s) :
    InvProp (delete_db_instance s id snap).2 := by
  unfold delete_db_instance
  cases hv : validateDbIdentifier id with
  | false => exact h
  | true =>
    cases hdb : dlookup s.databases id with
    | none => exact h
    | some db =>
      simp only []
      cases hprot : db.deletion_protection with
      | true => exact h
      | false =>
        obtain ⟨hsd, hsc⟩ := deleteSnapshotStep_state s id snap
        rcases hsnap : deleteSnapshotStep s id snap with ⟨res, sx⟩
        rw [hsnap] at hsd hsc
        have hsd2 : sx.databases = s.databases := hsd
        have hsc2 : sx.clusters = s.clusters := hsc
        have hsxInv : InvProp sx := InvProp_of_same s sx hsd2 hsc2 h
        have hdbx : dlookup sx.databases id = some db := by
          rw [hsd2]
          exact hdb
        cases res with
        | error e => exact hsxInv
        | ok u =>
          simp only []
          cases hrep : db.is_replica with
          | true =>
            have hno : ∀ ck c, dlookup sx.clusters ck = some c →
                id ∉ c.cluster_members := by
              intro ck c hc hm
              have := (InvProp_member_unique sx hsxInv hdbx hc hm).2
              rw [hrep] at this
              exact Bool.noConfusion this
            have h3 : InvProp { sx with databases := derase sx.databases id } :=
              InvProp_derase_unreferenced sx id hsxInv hno
            have h4 := deleteReplicaStep_preserves
              { sx with databases := derase sx.databases id } db h3
            rcases hrs : deleteReplicaStep
                { sx with databases := derase sx.databases id } db with ⟨res2, s4⟩
            rw [hrs] at h4
            cases res2 with
            | error e => exact h4
            | ok u2 => exact deleteClusterStep_preserves s4 db id h4
          | false =>
            -- the replica step leaves the state untouched
            rcases hrs : deleteReplicaStep
                { sx with databases := derase sx.databases id } db with ⟨res2, s4⟩
            have hrs2 : deleteReplicaStep
                { sx with databases := derase sx.databases id } db =
                (Except.ok (), { sx with databases := derase sx.databases id }) := by
              unfold deleteReplicaStep
              rw [hrep]
              simp only [Bool.false_eq_true, if_false]
            rw [hrs] at hrs2
            injection hrs2 with e1 e2
            subst e2
            cases res2 with
            | error e => exact Except.noConfusion e1
            | ok u2 =>
              -- now the cluster phase, on the popped state
              unfold deleteClusterStep
              cases hcid : db.db_cluster_identifier with
              | none =>
                refine InvProp_derase_unreferenced sx id hsxInv ?_
                intro ck c hc hm
                have := (InvProp_member_unique sx hsxInv hdbx hc hm).1
                rw [hcid] at this
                exact Option.noConfusion this
              | some cid =>
                simp only []
                cases hcl : dlookup sx.clusters cid with
                | none =>
                  refine InvProp_derase_unreferenced sx id hsxInv ?_
                  intro ck c hc hm
                  have hck := (InvProp_member_unique sx hsxInv hdbx hc hm).1
                  rw [hcid] at hck
                  injection hck with hck
                  rw [← hck] at hc
                  rw [hc] at hcl
                  exact Option.noConfusion hcl
                | some cluster =>
                  simp only []
                  by_cases hin : id ∈ cluster.cluster_members
                  · rw [if_pos hin]
                    exact InvProp_delete_member_and_db sx id db cid cluster
                      hsxInv hdbx hcid hcl
                  · rw [if_neg hin]
                    refine InvProp_derase_unreferenced sx id hsxInv ?_
                    intro ck c hc hm
                    have hck := (InvProp_member_unique sx hsxInv hdbx hc hm).1
                    rw [hcid] at hck
                    injection hck with hck
                    rw [← hck] at hc
                    rw [hc] at hcl
                    injection hcl with hcl
                    rw [hcl] at hm
                    exact hin hm

/-- C2, amended: `create_db_instance` and `delete_db_instance` preserve the
referential-integrity invariant `rdsInvariant` (each member of a DB cluster
`cluster_members` list names an existing, non-replica DB instance whose
`db_cluster_identifier` points back at that cluster, with duplicate-free
dictionaries and member lists), and hence preserve the claimed property
`membersExist` that every member id is a key of the databases map.  This does
not extend to every backend operation: `modify_db_instance` breaks the
invariant (see the counterexample). -/
theorem c2_cluster_members_integrity (s : RDSState)
    (h : rdsInvariant s = true) :
    ∀ (kw : DBInstanceKwargs) (id : String) (snap : Option String),
      rdsInvariant (create_db_instance s kw).2 = true ∧
      rdsInvariant (delete_db_instance s id snap).2 = true ∧
      membersExist (create_db_instance s kw).2 = true ∧
      membersExist (delete_db_instance s id snap).2 = true := by
  intro kw id snap
  have hI : InvProp s := (rdsInvariant_iff_InvProp s).mp h
  have r1 := (rdsInvariant_iff_InvProp _).mpr
    (create_db_instance_preserves_InvProp s kw hI)
  have r2 := (rdsInvariant_iff_InvProp _).mpr
    (delete_db_instance_preserves_InvProp s id snap hI)
  exact ⟨r1, r2, rdsInvariant_membersExist _ r1, rdsInvariant_membersExist _ r2⟩

theorem c2_cluster_members_integrity_witness :
    rdsInvariant emptyRds = true ∧
    (rdsInvariant (create_db_instance emptyRds kwC2Instance).2 = true ∧
     rdsInvariant (delete_db_instance emptyRds "db1" none).2 = true ∧
     membersExist (create_db_instance emptyRds kwC2Instance).2 = true ∧
     membersExist (delete_db_instance emptyRds "db1" none).2 = true) :=
  ⟨by decide, c2_cluster_members_integrity emptyRds (by decide)
    kwC2Instance "db1" none⟩

/-- C2, counterexample: in the reachable backend `c2s2` (cluster `c1` with
member `db1`) the invariant holds, `modify_db_instance` renaming `db1` to
`db2` succeeds, and afterwards `c1` still lists `db1` as a member although
no instance of that identifier exists: the rename never touches
`cluster_members`. -/
theorem c2_modify_breaks_members_counterexample :
    rdsInvariant c2s2 = true ∧
    c2sModify.1.isOk = true ∧
    membersExist c2sModify.2 = false := by decide
